import Mathlib

/-!
# Verification of the payment-processing demo

A shallow embedding, in Lean 4, of the core of the payment-processing demo
repository: the issuing-bank simulator (card accounts, holds, authorize /
capture / void), the card-network router (BIN detection, routing, network-level
capture), the acquiring bank (merchant accounts, capture forwarding,
settlement batches), the idempotency service, and the gateway authorization
service (amount validation, the Authorization state machine, charges).

Python dictionaries are modelled as association lists with dict semantics
(assignment replaces in place or appends; iteration follows insertion order).
Python `int` is modelled as `Int`, timestamps as `Int` seconds since
2000-01-01 00:00:00 (UTC), and `datetime(y, m, 1)` via an explicit Gregorian
day count.  Randomly generated identifiers and authorization codes are taken
as explicit parameters or fixed placeholder strings, since their content is
never inspected by the code.  All code is single-threaded here, so the
`threading.Lock` handshakes collapse to straight-line execution.
-/

namespace PayDemo

/-! ## Association lists with Python-dict semantics -/

/-- Dictionary lookup: first binding of the key (dicts have unique keys,
reachable states never duplicate a key). -/
def alookup {β : Type} (k : String) : List (String × β) → Option β
  | [] => none
  | (k', v) :: rest => if k' = k then some v else alookup k rest

/-- Dictionary assignment `d[k] = v`: replace in place, else append. -/
def ainsert {β : Type} (k : String) (v : β) : List (String × β) → List (String × β)
  | [] => [(k, v)]
  | (k', v') :: rest => if k' = k then (k, v) :: rest else (k', v') :: ainsert k v rest

/-- Dictionary deletion `del d[k]`: removes the (unique) binding of `k`. -/
def aerase {β : Type} (k : String) : List (String × β) → List (String × β)
  | [] => []
  | (k', v') :: rest => if k' = k then rest else (k', v') :: aerase k rest

def avsum : List (String × Int) → Int
  | [] => 0
  | (_, v) :: rest => v + avsum rest

/-! ## Calendar arithmetic

`datetime(year, month, 1)` is embedded as seconds since 2000-01-01 00:00:00,
for years `≥ 2000` (all dates appearing in the repository are in that range).
-/

def isLeap (y : Nat) : Bool := (y % 4 == 0 && y % 100 != 0) || y % 400 == 0

def daysInYear (y : Nat) : Nat := if isLeap y then 366 else 365

def daysInMonth (y m : Nat) : Nat :=
  if m = 2 then (if isLeap y then 29 else 28)
  else if m = 4 ∨ m = 6 ∨ m = 9 ∨ m = 11 then 30
  else 31

/-- Days from 2000-01-01 to the start of year `y` (for `y ≥ 2000`). -/
def daysBeforeYear (y : Nat) : Nat :=
  (List.range (y - 2000)).foldl (fun acc i => acc + daysInYear (2000 + i)) 0

/-- Days from the start of year `y` to the first of month `m` (1-based). -/
def daysBeforeMonth (y m : Nat) : Nat :=
  (List.range (m - 1)).foldl (fun acc i => acc + daysInMonth y (i + 1)) 0

/-- `datetime(y, m, d)` at midnight, as seconds since 2000-01-01. -/
def civilToSec (y m d : Nat) : Int :=
  86400 * ((daysBeforeYear y : Int) + (daysBeforeMonth y m : Int) + (d : Int) - 1)

/-- `timedelta(days=n)` in seconds. -/
def daysSec (n : Int) : Int := 86400 * n

/-- First instant after the last day of month `m` of year `y`
(i.e. midnight starting the following month): the "end of the expiry month". -/
def endOfMonthSec (y m : Nat) : Int :=
  if m = 12 then civilToSec (y + 1) 1 1 else civilToSec y (m + 1) 1

/-! ## Issuing bank (`src/bank_simulator/issuing_bank.py`) -/

inductive CardStatus
  | active | blocked | expired | lost_stolen | fraud_suspect
deriving DecidableEq

inductive AccountType
  | debit | credit | prepaid
deriving DecidableEq

/-- `CardAccount` dataclass. `holds` maps auth id to held amount. -/
structure CardAccount where
  card_number : String
  cardholder_name : String
  exp_month : Nat
  exp_year : Nat
  cvv : String
  status : CardStatus := .active
  account_type : AccountType := .credit
  credit_limit : Int := 500000
  current_balance : Int := 0
  account_balance : Int := 100000
  holds : List (String × Int) := []
  velocity_limit : Nat := 5
  single_transaction_limit : Int := 100000
deriving DecidableEq

def CardAccount.holds_total (a : CardAccount) : Int := avsum a.holds

/-- `available_credit` property. -/
def CardAccount.available_credit (a : CardAccount) : Int :=
  a.credit_limit - a.current_balance - a.holds_total

/-- `available_balance` property. -/
def CardAccount.available_balance (a : CardAccount) : Int :=
  a.account_balance - a.holds_total

/-- The available funds the decline check reads, by account type. -/
def CardAccount.available (a : CardAccount) : Int :=
  if a.account_type = .credit then a.available_credit else a.available_balance

structure AuthorizationRequest where
  request_id : String
  card_number : String
  exp_month : Nat
  exp_year : Nat
  cvv : String
  amount : Int
  currency : String
  merchant_id : String
  merchant_name : String
  merchant_category : String
deriving DecidableEq

structure AuthorizationResponse where
  request_id : String
  approved : Bool
  auth_code : Option String := none
  decline_reason : Option String := none
  avs_result : String := "Y"
  cvv_result : String := "M"
deriving DecidableEq

/-- `IssuingBank`: card number to account, card number to velocity timestamps. -/
structure IssuingBank where
  bank_name : String
  accounts : List (String × CardAccount)
  transaction_history : List (String × List Int)
deriving DecidableEq

/-- Placeholder for `secrets.token_hex(3).upper()`; the generated code's
content is never inspected, only its presence. -/
def genAuthCode : String := "3F9A2C"

/-- `_check_velocity`: fewer than `limit` timestamps in the trailing hour. -/
def IssuingBank.check_velocity (b : IssuingBank) (card_number : String) (limit : Nat)
    (now : Int) : Bool :=
  let history := (alookup card_number b.transaction_history).getD []
  let recent := history.filter fun t => now - 3600 < t
  recent.length < limit

/-- `_record_transaction`: append `now` to the card's velocity history. -/
def IssuingBank.record_transaction (b : IssuingBank) (card_number : String)
    (now : Int) : IssuingBank :=
  let history := (alookup card_number b.transaction_history).getD []
  { b with transaction_history := ainsert card_number (history ++ [now]) b.transaction_history }

def declineResponse (req : AuthorizationRequest) (reason : String) : AuthorizationResponse :=
  { request_id := req.request_id, approved := false, decline_reason := some reason }

/-- The expiry test of `IssuingBank.authorize`:
`now > datetime(exp_year, exp_month, 1) + timedelta(days=31)`. -/
def pastExpiryGrace (a : CardAccount) (now : Int) : Bool :=
  now > civilToSec a.exp_year a.exp_month 1 + daysSec 31

/-- `IssuingBank.authorize`, with `now` the value of `datetime.now()`
(seconds since 2000-01-01). Returns the response and the updated bank. -/
def IssuingBank.authorize (b : IssuingBank) (req : AuthorizationRequest) (now : Int) :
    AuthorizationResponse × IssuingBank :=
  match alookup req.card_number b.accounts with
  | none => (declineResponse req "invalid_card", b)
  | some account =>
    if account.status = .blocked then (declineResponse req "card_declined", b)
    else if account.status = .lost_stolen then (declineResponse req "pickup_card", b)
    else if account.status = .fraud_suspect then (declineResponse req "fraudulent", b)
    else if pastExpiryGrace account now then
      (declineResponse req "expired_card", b)
    else if req.cvv ≠ account.cvv then
      ({ declineResponse req "incorrect_cvc" with cvv_result := "N" }, b)
    else if req.amount > account.single_transaction_limit then
      (declineResponse req "transaction_not_allowed", b)
    else if req.amount > account.available then
      (declineResponse req "insufficient_funds", b)
    else if ¬ b.check_velocity req.card_number account.velocity_limit now then
      (declineResponse req "withdrawal_count_limit_exceeded", b)
    else
      let account' := { account with holds := ainsert req.request_id req.amount account.holds }
      let b' := { b with accounts := ainsert req.card_number account' b.accounts }
      let b'' := b'.record_transaction req.card_number now
      ({ request_id := req.request_id, approved := true, auth_code := some genAuthCode,
         cvv_result := "M" }, b'')

/-- Applies a successful capture to the account that owns the hold. -/
def CardAccount.apply_capture (a : CardAccount) (auth_id : String) (amount : Int) :
    CardAccount :=
  let a' := { a with holds := aerase auth_id a.holds }
  if a.account_type = .credit then { a' with current_balance := a'.current_balance + amount }
  else { a' with account_balance := a'.account_balance - amount }

/-- The `for account in self._accounts.values()` scan of `capture`: the first
account owning the hold decides the outcome (the loop returns either way). -/
def captureScan (auth_id : String) (amount : Int) :
    List (String × CardAccount) → Bool × List (String × CardAccount)
  | [] => (false, [])
  | (k, a) :: rest =>
    match alookup auth_id a.holds with
    | some held =>
      if amount > held then (false, (k, a) :: rest)
      else (true, (k, a.apply_capture auth_id amount) :: rest)
    | none =>
      ((captureScan auth_id amount rest).1, (k, a) :: (captureScan auth_id amount rest).2)

/-- `IssuingBank.capture`. -/
def IssuingBank.capture (b : IssuingBank) (auth_id : String) (amount : Int) :
    Bool × IssuingBank :=
  let (ok, accounts') := captureScan auth_id amount b.accounts
  (ok, { b with accounts := accounts' })

/-- The scan of `void`: drops the hold from the first account owning it. -/
def voidScan (auth_id : String) :
    List (String × CardAccount) → Bool × List (String × CardAccount)
  | [] => (false, [])
  | (k, a) :: rest =>
    match alookup auth_id a.holds with
    | some _ => (true, (k, { a with holds := aerase auth_id a.holds }) :: rest)
    | none =>
      ((voidScan auth_id rest).1, (k, a) :: (voidScan auth_id rest).2)

/-- `IssuingBank.void`. -/
def IssuingBank.void (b : IssuingBank) (auth_id : String) : Bool × IssuingBank :=
  let (ok, accounts') := voidScan auth_id b.accounts
  (ok, { b with accounts := accounts' })

/-- One operation of the sequences quantified over by the invariant claim. -/
inductive BankOp
  | auth (req : AuthorizationRequest) (now : Int)
  | cap (auth_id : String) (amount : Int)
  | void (auth_id : String)

def IssuingBank.applyOp (b : IssuingBank) : BankOp → IssuingBank
  | .auth req now => (b.authorize req now).2
  | .cap auth_id amount => (b.capture auth_id amount).2
  | .void auth_id => (b.void auth_id).2

def IssuingBank.applyOps (b : IssuingBank) : List BankOp → IssuingBank
  | [] => b
  | op :: rest => (b.applyOp op).applyOps rest

/-! ### Claim-side views of `IssuingBank.authorize` -/

/-- The observable outcome of an authorization response. -/
inductive AuthOutcome
  | approvedOut
  | declinedOut (reason : String)
deriving DecidableEq

def outcomeOf (r : AuthorizationResponse) : AuthOutcome :=
  if r.approved then .approvedOut else .declinedOut (r.decline_reason.getD "")

/-- The decline cascade as the claim words it (first match determines the
decline code), parametrised by the expiry predicate under dispute. -/
def declineCascade (expiredAt : CardAccount → Int → Bool) (b : IssuingBank)
    (req : AuthorizationRequest) (now : Int) : AuthOutcome :=
  match alookup req.card_number b.accounts with
  | none => .declinedOut "invalid_card"
  | some account =>
    if account.status = .blocked then .declinedOut "card_declined"
    else if account.status = .lost_stolen then .declinedOut "pickup_card"
    else if account.status = .fraud_suspect then .declinedOut "fraudulent"
    else if expiredAt account now then .declinedOut "expired_card"
    else if req.cvv ≠ account.cvv then .declinedOut "incorrect_cvc"
    else if req.amount > account.single_transaction_limit then
      .declinedOut "transaction_not_allowed"
    else if req.amount > account.available then .declinedOut "insufficient_funds"
    else if ¬ b.check_velocity req.card_number account.velocity_limit now then
      .declinedOut "withdrawal_count_limit_exceeded"
    else .approvedOut

/-- The claim's expiry predicate: a grace period ending at the end of the
expiry month. -/
def pastEndOfExpiryMonth (a : CardAccount) (now : Int) : Bool :=
  now > endOfMonthSec a.exp_year a.exp_month

/-- The claim's reading of the authorize cascade. -/
def claimAuthOutcome : IssuingBank → AuthorizationRequest → Int → AuthOutcome :=
  declineCascade pastEndOfExpiryMonth

/-- The amended reading: the expiry grace is 31 days from the first of the
expiry month (the code's actual check). -/
def amendedAuthOutcome : IssuingBank → AuthorizationRequest → Int → AuthOutcome :=
  declineCascade pastExpiryGrace

/-! ### Invariants for the hold bookkeeping -/

/-- Non-negative available funds and non-negative hold amounts. -/
def CardAccount.inv (a : CardAccount) : Prop :=
  0 ≤ a.available ∧ ∀ p ∈ a.holds, 0 ≤ p.2

def IssuingBank.inv (b : IssuingBank) : Prop :=
  ∀ p ∈ b.accounts, p.2.inv

instance (a : CardAccount) : Decidable a.inv := by
  unfold CardAccount.inv; infer_instance

instance (b : IssuingBank) : Decidable b.inv := by
  unfold IssuingBank.inv; infer_instance

/-- The amendment's hypothesis on the operations: authorize requests carry a
non-negative amount (capture and void amounts are unconstrained). -/
def BankOp.amountOK : BankOp → Bool
  | .auth req _ => 0 ≤ req.amount
  | .cap _ _ => true
  | .void _ => true

/-- The first account owning a hold with this id, and the held amount
(`capture`'s scan order). -/
def findHolder (auth_id : String) :
    List (String × CardAccount) → Option (String × CardAccount × Int)
  | [] => none
  | (k, a) :: rest =>
    match alookup auth_id a.holds with
    | some held => some (k, a, held)
    | none => findHolder auth_id rest

/-! ### Concrete issuing-bank data (witnesses and counterexamples) -/

/-- A healthy credit account as in `_setup_test_accounts` (limit $10,000). -/
def acct4242 : CardAccount :=
  { card_number := "4242424242424242", cardholder_name := "Test Success",
    exp_month := 12, exp_year := 2025, cvv := "123", credit_limit := 1000000 }

def demoBank : IssuingBank :=
  ⟨"Demo Bank", [("4242424242424242", acct4242)], []⟩

def demoNow : Int := civilToSec 2025 6 15

def demoReq : AuthorizationRequest :=
  { request_id := "auth_001", card_number := "4242424242424242", exp_month := 12,
    exp_year := 2025, cvv := "123", amount := 5000, currency := "USD",
    merchant_id := "merch_123", merchant_name := "Test Store", merchant_category := "5411" }

/-- Credit account driving the invariant counterexample: limit 100, empty
holds, a high per-transaction limit. -/
def acctCex : CardAccount :=
  { card_number := "4000000000000100", cardholder_name := "Cex",
    exp_month := 12, exp_year := 2025, cvv := "123", credit_limit := 100,
    single_transaction_limit := 1000000 }

def bankCex : IssuingBank := ⟨"B", [("4000000000000100", acctCex)], []⟩

/-- Authorize a *negative* amount (a valid Python `int`), creating a `-5` hold. -/
def reqNeg : AuthorizationRequest :=
  { request_id := "hx", card_number := "4000000000000100", exp_month := 12,
    exp_year := 2025, cvv := "123", amount := -5, currency := "USD",
    merchant_id := "m", merchant_name := "M", merchant_category := "5411" }

/-- Authorize 105 against the inflated availability `100 - (-5) = 105`. -/
def reqBig : AuthorizationRequest := { reqNeg with request_id := "hy", amount := 105 }

/-- The violating sequence: after voiding the `-5` hold, available is `-5`. -/
def opsCex : List BankOp := [.auth reqNeg demoNow, .auth reqBig demoNow, .void "hx"]

/-- Account whose card expired February 2025; at 2025-03-02 the claim's
end-of-month grace has passed but the code's 31-day grace (to March 4) has not. -/
def acctFeb : CardAccount :=
  { card_number := "4111111111111111", cardholder_name := "Feb",
    exp_month := 2, exp_year := 2025, cvv := "123" }

def bankFeb : IssuingBank := ⟨"B", [("4111111111111111", acctFeb)], []⟩

def reqFeb : AuthorizationRequest :=
  { request_id := "hz", card_number := "4111111111111111", exp_month := 2,
    exp_year := 2025, cvv := "123", amount := 100, currency := "USD",
    merchant_id := "m", merchant_name := "M", merchant_category := "5411" }

def nowMar2 : Int := civilToSec 2025 3 2

/-- `acct4242` carrying an active $50 hold under `auth_001`. -/
def acctHold : CardAccount := { acct4242 with holds := [("auth_001", 5000)] }

def bankHold : IssuingBank := ⟨"Demo Bank", [("4242424242424242", acctHold)], []⟩

/-- A plain two-step scenario: authorize then capture. -/
def opsDemo : List BankOp := [.auth demoReq demoNow, .cap "auth_001" 5000]

/-! ## Idempotency service (`src/shared/idempotency.py`)

Single-threaded embedding: the per-key `threading.Lock` is always free, so
`execute` follows the straight-line path (the double-checked re-read under the
lock returns the same answer as the first read).  `_hash_params` (sha256 of
the canonical JSON) is modelled by an injective canonical serialization of the
request parameters; the claims only compare hashes for equality. -/

inductive IdemStatus
  | pending | completed | failed
deriving DecidableEq

/-- A raised/stored Python exception, as the code stores it:
`{"type": type(e).__name__, "message": str(e)}`. -/
structure PyErr where
  ename : String
  emsg : String
deriving DecidableEq

structure IdemRecord (α : Type) where
  key : String
  status : IdemStatus
  request_hash : String
  result : Option α := none
  error : Option PyErr := none
  created_at : Int
  expires_at : Int
deriving DecidableEq

def IdemRecord.is_expired {α : Type} (r : IdemRecord α) (now : Int) : Bool :=
  now > r.expires_at

/-- The in-memory store: key to record. -/
def IdemStore (α : Type) : Type := List (String × IdemRecord α)

/-- `IdempotencyStore.get`: lazily evicts an expired record. -/
def storeGet {α : Type} (s : IdemStore α) (key : String) (now : Int) :
    Option (IdemRecord α) × IdemStore α :=
  match alookup key s with
  | some r => if r.is_expired now then (none, aerase key s) else (some r, s)
  | none => (none, s)

/-- `IdempotencyStore.set`. -/
def storeSet {α : Type} (s : IdemStore α) (r : IdemRecord α) : IdemStore α :=
  ainsert r.key r s

/-- The observable outcome of one `execute` call: a returned value, one of the
idempotency errors, or the re-raise of the operation error on a fresh run. -/
inductive ExecOutcome (α : Type)
  | ok (v : Option α)
  | conflict
  | inProgress
  | failedPreviously (e : PyErr)
  | raised (e : PyErr)
deriving DecidableEq

/-- `_handle_existing_record`. -/
def handle_existing_record {α : Type} (r : IdemRecord α) (request_hash : String) :
    ExecOutcome α :=
  if r.request_hash ≠ request_hash then .conflict
  else if r.status = .pending then .inProgress
  else if r.status = .failed then .failedPreviously (r.error.getD ⟨"", ""⟩)
  else .ok r.result

/-- Default record TTL: 24 hours, in seconds. -/
def ttlSeconds : Int := 24 * 3600

/-- The request parameters hashed by the gateway flows:
`{token_id, amount, currency}` plus `capture` for `create_charge`. -/
structure ReqParams where
  token_id : String
  amount : Int
  currency : String
  capture : Option Bool := none
deriving DecidableEq

/-- `_hash_params`, modelled as the canonical serialization itself (a
collision-free abstraction of the sha256 digest). -/
def hashParams (p : ReqParams) : String :=
  p.token_id ++ "|" ++ toString p.amount ++ "|" ++ p.currency ++
    (match p.capture with
     | none => ""
     | some b => "|" ++ toString b)

structure ExecResult (σ α : Type) where
  outcome : ExecOutcome α
  store : IdemStore α
  state : σ
  invoked : Bool

/-- `IdempotencyService.execute`, single-threaded.  `op` is the wrapped
operation acting on the rest of the world `σ`; `invoked` records whether it
ran. -/
def IdempotencyService.execute {σ α : Type} (s : IdemStore α) (key : String)
    (params : ReqParams) (op : σ → Except PyErr α × σ) (st : σ) (now : Int) :
    ExecResult σ α :=
  let request_hash := hashParams params
  match storeGet s key now with
  | (some r, s1) => ⟨handle_existing_record r request_hash, s1, st, false⟩
  | (none, s1) =>
    let pendingRec : IdemRecord α :=
      { key := key, status := .pending, request_hash := request_hash,
        created_at := now, expires_at := now + ttlSeconds }
    let s2 := storeSet s1 pendingRec
    match op st with
    | (.ok v, st') =>
      ⟨.ok (some v),
        storeSet s2 { pendingRec with status := .completed, result := some v }, st', true⟩
    | (.error e, st') =>
      ⟨.raised e,
        storeSet s2 { pendingRec with status := .failed, error := some e }, st', true⟩

/-- `n` sequential `execute` calls with identical key, params and operation;
returns the final store and state plus the number of operation invocations. -/
def execN {σ α : Type} (key : String) (params : ReqParams)
    (op : σ → Except PyErr α × σ) (now : Int) :
    Nat → IdemStore α → σ → IdemStore α × σ × Nat
  | 0, s, st => (s, st, 0)
  | n + 1, s, st =>
    let r := IdempotencyService.execute s key params op st now
    let rest := execN key params op now n r.store r.state
    (rest.1, rest.2.1, (if r.invoked then 1 else 0) + rest.2.2)

/-- A live, settled (non-pending) record with the matching hash: the state of
a key after its first `execute` finished. -/
def goodRecord {α : Type} (s : IdemStore α) (key : String) (params : ReqParams)
    (now : Int) : Prop :=
  ∃ r : IdemRecord α, alookup key s = some r ∧ r.is_expired now = false
    ∧ r.request_hash = hashParams params ∧ r.status ≠ .pending

/-! ## Gateway authorization service (`src/gateway/authorization.py`,
`src/gateway/models.py`, `src/gateway/tokenization.py`)

The card vault and encryption are collapsed: a token record stores the card
number it would decrypt to.  The `metadata` dicts (opaque payloads) are
omitted.  `TokenGenerator.generate` ids and bank auth codes are explicit
parameters or the fixed placeholder `genAuthCode`. -/

inductive GAuthStatus
  | active | captured | voided | expired
deriving DecidableEq

inductive GPayStatus
  | pending | requires_action | processing | authorized | succeeded | failed
  | canceled | refunded | partially_refunded
deriving DecidableEq

/-- `Authorization` dataclass (gateway model). -/
structure Authorization where
  id : String
  amount : Int
  currency : String
  status : GAuthStatus
  card_last_four : String
  card_brand : String
  created_at : Int
  expires_at : Int
  captured_at : Option Int := none
  voided_at : Option Int := none
  captured_amount : Int := 0
  auth_code : Option String := none
  merchant_id : String := ""
deriving DecidableEq

/-- `Authorization.can_capture`.  Mirrors the Python truthiness of
`if amount and amount > (self.amount - self.captured_amount)`: the amount
check is skipped when `amount` is `None` *or `0`*. -/
def Authorization.can_capture (a : Authorization) (amount : Option Int) (now : Int) :
    Bool :=
  if a.status ≠ .active then false
  else if now > a.expires_at then false
  else
    match amount with
    | none => true
    | some v => if v ≠ 0 then decide (v ≤ a.amount - a.captured_amount) else true

/-- `Authorization.can_void`. -/
def Authorization.can_void (a : Authorization) : Bool :=
  a.status = .active

/-- `Charge` dataclass (risk and refund bookkeeping fields omitted where the
claims never touch them). -/
structure Charge where
  id : String
  amount : Int
  currency : String
  status : GPayStatus
  card_last_four : String
  card_brand : String
  created_at : Int := 0
  authorization_code : Option String := none
  decline_code : Option String := none
  decline_message : Option String := none
  refunded : Bool := false
  refunded_amount : Int := 0
  authorization_id : Option String := none
  merchant_id : String := ""
  description : Option String := none
deriving DecidableEq

/-- One-time token (vault collapsed to the stored card number). -/
structure TokenRec where
  id : String
  card_number : String
  card_last_four : String
  card_brand : String
  expires_at : Option Int := none
  used : Bool := false
deriving DecidableEq

def TokenRec.is_expired (t : TokenRec) (now : Int) : Bool :=
  match t.expires_at with
  | none => false
  | some e => now > e

/-- Behavior entries of the `TEST_CARDS` table in `shared/constants.py`. -/
inductive TestBehavior
  | success | decline (code : String) | threeDSRequired | successDelayed | attachFail
deriving DecidableEq

def TEST_CARDS : List (String × TestBehavior) :=
  [("4242424242424242", .success),
   ("5555555555554444", .success),
   ("378282246310005", .success),
   ("4000000000000002", .decline "card_declined"),
   ("4000000000009995", .decline "insufficient_funds"),
   ("4000000000000069", .decline "expired_card"),
   ("4000000000000127", .decline "invalid_cvv"),
   ("4000000000003220", .threeDSRequired),
   ("4000000000000077", .successDelayed),
   ("4000000000000341", .attachFail)]

/-- `BankSimulator.DECLINE_MESSAGES` (text irrelevant to the claims; the
apostrophe of the invalid-cvv message is elided). -/
def DECLINE_MESSAGES : List (String × String) :=
  [("card_declined", "Your card was declined."),
   ("insufficient_funds", "Your card has insufficient funds."),
   ("expired_card", "Your card has expired."),
   ("invalid_number", "Your card number is invalid."),
   ("invalid_cvv", "Your card security code is invalid."),
   ("stolen_card", "Your card was declined."),
   ("lost_card", "Your card was declined."),
   ("issuer_unavailable", "The card issuer is temporarily unavailable."),
   ("try_again", "Please try again."),
   ("authentication_required", "Additional authentication required."),
   ("processing_error", "An error occurred processing your card.")]

structure BankAuthResponse where
  approved : Bool
  auth_code : Option String := none
  decline_code : Option String := none
  decline_message : Option String := none
deriving DecidableEq

/-- `BankSimulator.authorize` (gateway bank stub driven by `TEST_CARDS`).
Unknown cards - and test behaviors with no matching branch, such as
`attach_fail` - default to approval. -/
def BankSimulator.authorize (card_number : String) : BankAuthResponse :=
  match alookup card_number TEST_CARDS with
  | some .success => { approved := true, auth_code := some genAuthCode }
  | some (.decline code) =>
    { approved := false, decline_code := some code,
      decline_message := some ((alookup code DECLINE_MESSAGES).getD "Your card was declined.") }
  | some .successDelayed => { approved := true, auth_code := some genAuthCode }
  | some .threeDSRequired =>
    { approved := false, decline_code := some "authentication_required",
      decline_message := some "3D Secure authentication required" }
  | some .attachFail => { approved := true, auth_code := some genAuthCode }
  | none => { approved := true, auth_code := some genAuthCode }

/-- The `AuthorizationService` storage: tokens, authorizations, charges. -/
structure GatewayCore where
  tokens : List (String × TokenRec)
  authorizations : List (String × Authorization)
  charges : List (String × Charge)
deriving DecidableEq

/-- `TokenizationService.use_token`: not-found, then expired, then
already-used; marks the token used and yields the card number. -/
def use_token (c : GatewayCore) (token_id : String) (now : Int) :
    Except PyErr (TokenRec × String) × GatewayCore :=
  match alookup token_id c.tokens with
  | none => (.error ⟨"TokenNotFoundError", "Token not found"⟩, c)
  | some t =>
    if t.is_expired now then (.error ⟨"TokenExpiredError", "Token has expired"⟩, c)
    else if t.used then
      (.error ⟨"TokenAlreadyUsedError", "Token has already been used"⟩, c)
    else
      (.ok ({ t with used := true }, t.card_number),
        { c with tokens := ainsert token_id { t with used := true } c.tokens })

def MIN_AMOUNT_CENTS : Int := 50

def MAX_AMOUNT_CENTS : Int := 99999999

/-- `_validate_amount` (amounts are `Int`, so the isinstance check is
inherent). -/
def validate_amount (amount : Int) : Option PyErr :=
  if amount < MIN_AMOUNT_CENTS then
    some ⟨"InvalidAmountError", "Amount must be at least 50 cents"⟩
  else if amount > MAX_AMOUNT_CENTS then
    some ⟨"InvalidAmountError", "Amount cannot exceed 99999999 cents"⟩
  else none

/-- What `execute` caches for the gateway flows: a serialized Authorization
or Charge. -/
inductive CachedVal
  | authV (a : Authorization)
  | chargeV (ch : Charge)
deriving DecidableEq

/-- `AuthorizationService._do_authorize`; the `Nat` counts bank-network
authorization calls. -/
def do_authorize (c : GatewayCore) (token_id : String) (amount : Int)
    (currency : String) (merchant_id : String) (now : Int) (freshAuthId : String) :
    Except PyErr Authorization × GatewayCore × Nat :=
  match use_token c token_id now with
  | (.error e, c') => (.error e, c', 0)
  | (.ok (tok, card_number), c') =>
    let resp := BankSimulator.authorize card_number
    if resp.approved = false then
      (.error ⟨"AuthorizationError", resp.decline_message.getD "Authorization failed"⟩, c', 1)
    else
      let auth : Authorization :=
        { id := freshAuthId, amount := amount, currency := currency, status := .active,
          card_last_four := tok.card_last_four, card_brand := tok.card_brand,
          created_at := now, expires_at := now + daysSec 7,
          auth_code := resp.auth_code, merchant_id := merchant_id }
      (.ok auth, { c' with authorizations := ainsert auth.id auth c'.authorizations }, 1)

/-- Result of a service-level flow: outcome, gateway state, idempotency
store, number of bank-network calls made. -/
structure FlowResult where
  outcome : ExecOutcome CachedVal
  core : GatewayCore
  idem : IdemStore CachedVal
  bank_calls : Nat

/-- `AuthorizationService.authorize`: validates the amount *before* the
idempotency wrapper, then runs `_do_authorize` under `execute` when a key is
supplied. -/
def AuthorizationService.authorize (c : GatewayCore) (s : IdemStore CachedVal)
    (token_id : String) (amount : Int) (currency : String) (merchant_id : String)
    (idempotency_key : Option String) (now : Int) (freshAuthId : String) : FlowResult :=
  match validate_amount amount with
  | some e => ⟨.raised e, c, s, 0⟩
  | none =>
    match idempotency_key with
    | some key =>
      let r := IdempotencyService.execute s key
        { token_id := token_id, amount := amount, currency := currency }
        (fun st : GatewayCore × Nat =>
          match do_authorize st.1 token_id amount currency merchant_id now freshAuthId with
          | (.ok a, c', n) => (.ok (CachedVal.authV a), (c', st.2 + n))
          | (.error e, c', n) => (.error e, (c', st.2 + n))) (c, 0) now
      ⟨r.outcome, r.state.1, r.store, r.state.2⟩
    | none =>
      match do_authorize c token_id amount currency merchant_id now freshAuthId with
      | (.ok a, c', n) => ⟨.ok (some (.authV a)), c', s, n⟩
      | (.error e, c', n) => ⟨.raised e, c', s, n⟩

/-- `AuthorizationService._do_create_charge`: validates the amount *inside*
(first line of the internal operation), then token, bank authorize, and the
three outcome branches.  The `Nat` counts bank-network calls (authorize and
capture). -/
def do_create_charge (c : GatewayCore) (token_id : String) (amount : Int)
    (currency : String) (capture : Bool) (merchant_id : String)
    (description : Option String) (now : Int) (freshChargeId freshAuthId : String) :
    Except PyErr CachedVal × GatewayCore × Nat :=
  match validate_amount amount with
  | some e => (.error e, c, 0)
  | none =>
    match use_token c token_id now with
    | (.error e, c') => (.error e, c', 0)
    | (.ok (tok, card_number), c') =>
      let resp := BankSimulator.authorize card_number
      if resp.approved = false then
        let charge : Charge :=
          { id := freshChargeId, amount := amount, currency := currency, status := .failed,
            card_last_four := tok.card_last_four, card_brand := tok.card_brand,
            created_at := now, decline_code := resp.decline_code,
            decline_message := resp.decline_message, merchant_id := merchant_id,
            description := description }
        (.ok (.chargeV charge), { c' with charges := ainsert charge.id charge c'.charges }, 1)
      else if capture = false then
        let auth : Authorization :=
          { id := freshAuthId, amount := amount, currency := currency, status := .active,
            card_last_four := tok.card_last_four, card_brand := tok.card_brand,
            created_at := now, expires_at := now + daysSec 7,
            auth_code := resp.auth_code, merchant_id := merchant_id }
        let charge : Charge :=
          { id := freshChargeId, amount := amount, currency := currency,
            status := .authorized, card_last_four := tok.card_last_four,
            card_brand := tok.card_brand, created_at := now,
            authorization_code := resp.auth_code, authorization_id := some auth.id,
            merchant_id := merchant_id, description := description }
        (.ok (.chargeV charge),
          { c' with authorizations := ainsert auth.id auth c'.authorizations,
                    charges := ainsert charge.id charge c'.charges }, 1)
      else
        let charge : Charge :=
          { id := freshChargeId, amount := amount, currency := currency,
            status := .succeeded, card_last_four := tok.card_last_four,
            card_brand := tok.card_brand, created_at := now,
            authorization_code := resp.auth_code, merchant_id := merchant_id,
            description := description }
        (.ok (.chargeV charge),
          { c' with charges := ainsert charge.id charge c'.charges }, 2)

/-- `AuthorizationService.create_charge`: no validation outside - the
idempotency wrapper runs first when a key is supplied. -/
def AuthorizationService.create_charge (c : GatewayCore) (s : IdemStore CachedVal)
    (token_id : String) (amount : Int) (currency : String) (capture : Bool)
    (merchant_id : String) (description : Option String)
    (idempotency_key : Option String) (now : Int) (freshChargeId freshAuthId : String) :
    FlowResult :=
  match idempotency_key with
  | some key =>
    let r := IdempotencyService.execute s key
      { token_id := token_id, amount := amount, currency := currency,
        capture := some capture }
      (fun st : GatewayCore × Nat =>
        match do_create_charge st.1 token_id amount currency capture merchant_id
            description now freshChargeId freshAuthId with
        | (res, c', n) => (res, (c', st.2 + n))) (c, 0) now
    ⟨r.outcome, r.state.1, r.store, r.state.2⟩
  | none =>
    match do_create_charge c token_id amount currency capture merchant_id description
        now freshChargeId freshAuthId with
    | (.ok v, c', n) => ⟨.ok (some v), c', s, n⟩
    | (.error e, c', n) => ⟨.raised e, c', s, n⟩

/-- The Python `amount or auth.amount` of `_do_capture` (`None` and `0` both
fall back to the full amount). -/
def captureAmountOf (a : Authorization) (amount : Option Int) : Int :=
  match amount with
  | none => a.amount
  | some v => if v = 0 then a.amount else v

/-- `AuthorizationService._do_capture`.  The gateway `BankSimulator.capture`
always returns `True`, so the bank-declined branch is unreachable. -/
def AuthorizationService.do_capture (c : GatewayCore) (authorization_id : String)
    (amount : Option Int) (now : Int) (freshChargeId : String) :
    Except PyErr Charge × GatewayCore :=
  match alookup authorization_id c.authorizations with
  | none => (.error ⟨"CaptureError", "Authorization not found"⟩, c)
  | some auth =>
    let capture_amount := captureAmountOf auth amount
    if auth.can_capture (some capture_amount) now = false then
      if auth.status = .captured then
        (.error ⟨"CaptureError", "Authorization has already been captured"⟩, c)
      else if auth.status = .voided then
        (.error ⟨"CaptureError", "Authorization has been voided"⟩, c)
      else if now > auth.expires_at then
        (.error ⟨"CaptureError", "Authorization has expired"⟩, c)
      else (.error ⟨"CaptureError", "Cannot capture this amount"⟩, c)
    else
      let auth' := { auth with status := GAuthStatus.captured, captured_amount := capture_amount, captured_at := some now }
      let charge : Charge :=
        { id := freshChargeId, amount := capture_amount, currency := auth.currency,
          status := .succeeded, card_last_four := auth.card_last_four,
          card_brand := auth.card_brand, created_at := now,
          authorization_code := auth.auth_code, authorization_id := some auth.id,
          merchant_id := auth.merchant_id }
      (.ok charge,
        { c with authorizations := ainsert authorization_id auth' c.authorizations,
                 charges := ainsert charge.id charge c.charges })

/-- `AuthorizationService.void`: only `can_void` (status is active) guards it;
`expires_at` is never consulted. -/
def AuthorizationService.void (c : GatewayCore) (authorization_id : String)
    (now : Int) : Except PyErr Authorization × GatewayCore :=
  match alookup authorization_id c.authorizations with
  | none => (.error ⟨"PaymentError", "Authorization not found"⟩, c)
  | some auth =>
    if auth.can_void = false then
      (.error ⟨"PaymentError", "Authorization cannot be voided"⟩, c)
    else
      let auth' := { auth with status := GAuthStatus.voided, voided_at := some now }
      (.ok auth',
        { c with authorizations := ainsert authorization_id auth' c.authorizations })

/-! ## Card network (`src/bank_simulator/card_network.py`) -/

inductive NetworkType
  | visa | mastercard | amex | discover
deriving DecidableEq

def networkName : NetworkType → String
  | .visa => "visa"
  | .mastercard => "mastercard"
  | .amex => "amex"
  | .discover => "discover"

/-- `NetworkTransaction` (the `metadata` dict flattened into the fields the
code stores there). -/
structure NetworkTransaction where
  transaction_id : String
  network : NetworkType
  acquirer_id : String
  issuer_id : String
  amount : Int
  currency : String
  auth_code : Option String
  status : String
  created_at : Int
  merchant_id : String
  decline_reason : Option String
  interchange_fee : Int
  assessment_fee : Int
deriving DecidableEq

/-- The `BIN_RANGES` class table, in source order; keys are digit strings of
length 1 or 2. -/
def BIN_RANGES : List (List Char × NetworkType) :=
  [(['4'], .visa), (['5'], .mastercard), (['3', '4'], .amex), (['3', '7'], .amex),
   (['6'], .discover)]

/-- Membership test plus lookup in the BIN table (`prefix in BIN_RANGES`). -/
def binLookup (pre : List Char) : List (List Char × NetworkType) → Option NetworkType
  | [] => none
  | (k, n) :: rest => if k = pre then some n else binLookup pre rest

/-- `CardNetwork` state: registered issuers and the transaction log. -/
structure CardNetwork where
  network_type : NetworkType
  issuers : List (String × IssuingBank)
  transactions : List (String × NetworkTransaction)
deriving DecidableEq

def interchange_fee_bps : Int := 200

def assessment_fee_bps : Int := 13

/-- `int(amount * bps / 10000)`: float division then truncation toward zero
(exact at the magnitudes the simulator uses). -/
def feeOf (amount bps : Int) : Int := Int.tdiv (amount * bps) 10000

/-- `detect_network`: the 2-character prefix, then the first character. -/
def detect_network (card_number : String) : Option NetworkType :=
  match binLookup (card_number.toList.take 2) BIN_RANGES with
  | some n => some n
  | none => binLookup (card_number.toList.take 1) BIN_RANGES

/-- The claim's reading of brand detection: longest BIN prefix found in the
table, trying the 4-digit, then the 2-digit, then the 1-digit prefix. -/
def detect_network_spec (card_number : String) : Option NetworkType :=
  match binLookup (card_number.toList.take 4) BIN_RANGES with
  | some n => some n
  | none =>
    match binLookup (card_number.toList.take 2) BIN_RANGES with
    | some n => some n
    | none => binLookup (card_number.toList.take 1) BIN_RANGES

/-- The dict `route_authorization` returns, flattened. -/
structure RouteResult where
  success : Bool
  error : Option String := none
  transaction_id : Option String := none
  auth_code : Option String := none
  decline_reason : Option String := none
  avs_result : Option String := none
  cvv_result : Option String := none
  fee_interchange : Int := 0
  fee_assessment : Int := 0
  fee_total : Int := 0
deriving DecidableEq

/-- `CardNetwork.route_authorization`, with the generated transaction id and
`datetime` clock as parameters. -/
def CardNetwork.route_authorization (cn : CardNetwork) (acquirer_id card_number : String)
    (exp_month exp_year : Nat) (cvv : String) (amount : Int)
    (currency merchant_id merchant_name merchant_category : String)
    (txn_id : String) (now : Int) : RouteResult × CardNetwork :=
  if detect_network card_number ≠ some cn.network_type then
    ({ success := false,
       error := some ("Card not valid for " ++ networkName cn.network_type ++ " network") }, cn)
  else
    match alookup "default" cn.issuers with
    | none => ({ success := false, error := some "No issuing bank found for card" }, cn)
    | some issuer =>
      let req : AuthorizationRequest :=
        { request_id := txn_id, card_number := card_number, exp_month := exp_month,
          exp_year := exp_year, cvv := cvv, amount := amount, currency := currency,
          merchant_id := merchant_id, merchant_name := merchant_name,
          merchant_category := merchant_category }
      let ri := issuer.authorize req now
      let interchange := feeOf amount interchange_fee_bps
      let assessment := feeOf amount assessment_fee_bps
      let txn : NetworkTransaction :=
        { transaction_id := txn_id, network := cn.network_type,
          acquirer_id := acquirer_id, issuer_id := "default", amount := amount,
          currency := currency, auth_code := ri.1.auth_code,
          status := if ri.1.approved then "approved" else "declined",
          created_at := now, merchant_id := merchant_id,
          decline_reason := ri.1.decline_reason, interchange_fee := interchange,
          assessment_fee := assessment }
      ({ success := ri.1.approved, transaction_id := some txn_id,
         auth_code := ri.1.auth_code, decline_reason := ri.1.decline_reason,
         avs_result := some ri.1.avs_result, cvv_result := some ri.1.cvv_result,
         fee_interchange := interchange, fee_assessment := assessment,
         fee_total := interchange + assessment },
       { cn with issuers := ainsert "default" ri.2 cn.issuers,
                 transactions := ainsert txn_id txn cn.transactions })

/-- The dicts `CardNetwork.capture` / `AcquiringBank.capture` return. -/
structure CapResult where
  success : Bool
  error : Option String := none
  amount_captured : Option Int := none
deriving DecidableEq

/-- `CardNetwork.capture`: transaction must be logged with status
`"approved"`; on success the issuing-bank hold is captured and the logged
status becomes `"captured"`. -/
def CardNetwork.capture (cn : CardNetwork) (transaction_id : String) (amount : Int) :
    CapResult × CardNetwork :=
  match alookup transaction_id cn.transactions with
  | none => ({ success := false, error := some "Transaction not found" }, cn)
  | some txn =>
    if txn.status ≠ "approved" then
      ({ success := false, error := some "Transaction not authorized" }, cn)
    else
      match alookup txn.issuer_id cn.issuers with
      | some issuer =>
        let ci := issuer.capture transaction_id amount
        if ci.1 then
          ({ success := true, amount_captured := some amount },
           { cn with issuers := ainsert txn.issuer_id ci.2 cn.issuers,
                     transactions := ainsert transaction_id { txn with status := "captured" } cn.transactions })
        else
          ({ success := false, error := some "Capture failed" },
           { cn with issuers := ainsert txn.issuer_id ci.2 cn.issuers })
      | none => ({ success := false, error := some "Capture failed" }, cn)

/-! ## Acquiring bank (`src/bank_simulator/acquiring_bank.py`) -/

inductive SettlementStatus
  | pending | batched | settled | failed
deriving DecidableEq

inductive MerchantStatus
  | active | suspended | closed | under_review
deriving DecidableEq

/-- `MerchantAccount` (the float `chargeback_rate` is never read by the code
paths under claim and is omitted). -/
structure MerchantAccount where
  merchant_id : String
  business_name : String
  status : MerchantStatus := .active
  discount_rate_bps : Int := 290
  fixed_fee_cents : Int := 30
  settlement_delay_days : Nat := 2
  pending_settlement : Int := 0
  monthly_volume_limit : Int := 10000000
  current_month_volume : Int := 0
  mcc : String := "5411"
deriving DecidableEq

structure AcquirerTransaction where
  transaction_id : String
  merchant_id : String
  network_transaction_id : String
  amount : Int
  currency : String
  fees : Int
  net_amount : Int
  settlement_status : SettlementStatus
  settlement_date : Option Int := none
  created_at : Int := 0
deriving DecidableEq

structure SettlementBatch where
  id : String
  transactions : List String
  total_amount : Int
  total_fees : Int
  net_amount : Int
  created_at : Int
deriving DecidableEq

/-- `AcquiringBank` state.  `networks` is `self._networks.values()` in
insertion order: the Visa instance first, then Mastercard. -/
structure AcquiringBank where
  bank_name : String
  merchants : List (String × MerchantAccount)
  networks : List CardNetwork
  transactions : List (String × AcquirerTransaction)
  batches : List SettlementBatch
deriving DecidableEq

/-- The Python `amount or transaction.amount` of `AcquiringBank.capture`
(`None` and `0` both fall back to the transaction amount). -/
def captureAmtA (txn : AcquirerTransaction) (amount : Option Int) : Int :=
  match amount with
  | none => txn.amount
  | some v => if v = 0 then txn.amount else v

/-- `AcquiringBank.capture`: looks the transaction up, then forwards to
`list(self._networks.values())[0]` - the *first registered network* - and on
success credits the merchant's `pending_settlement` with the transaction's
`net_amount`.  An empty network registry would raise `IndexError` in Python;
it is modelled as a failure result (the constructor always registers two). -/
def AcquiringBank.capture (b : AcquiringBank) (transaction_id : String)
    (amount : Option Int) : CapResult × AcquiringBank :=
  match alookup transaction_id b.transactions with
  | none => ({ success := false, error := some "Transaction not found" }, b)
  | some txn =>
    match b.networks with
    | [] => ({ success := false, error := some "IndexError" }, b)
    | network :: rest =>
      let ci := network.capture txn.network_transaction_id (captureAmtA txn amount)
      let b' := { b with networks := ci.2 :: rest }
      if ci.1.success then
        match alookup txn.merchant_id b.merchants with
        | some merchant =>
          (ci.1, { b' with merchants := ainsert txn.merchant_id { merchant with pending_settlement := merchant.pending_settlement + txn.net_amount } b.merchants })
        | none => (ci.1, b')
      else (ci.1, b')

/-- The claim's reading of `capture` (for comparison with the code): forward
to the network on which the transaction was originally authorized - the one
whose log contains its `network_transaction_id`. -/
def AcquiringBank.capture_claimed (b : AcquiringBank) (transaction_id : String)
    (amount : Option Int) : CapResult × AcquiringBank :=
  match alookup transaction_id b.transactions with
  | none => ({ success := false, error := some "Transaction not found" }, b)
  | some txn =>
    match b.networks.find? (fun n => (alookup txn.network_transaction_id n.transactions).isSome) with
    | none => ({ success := false, error := some "Capture failed" }, b)
    | some network =>
      let ci := network.capture txn.network_transaction_id (captureAmtA txn amount)
      let b' := { b with networks := b.networks.map (fun n => if n.network_type = network.network_type then ci.2 else n) }
      if ci.1.success then
        match alookup txn.merchant_id b.merchants with
        | some merchant =>
          (ci.1, { b' with merchants := ainsert txn.merchant_id { merchant with pending_settlement := merchant.pending_settlement + txn.net_amount } b.merchants })
        | none => (ci.1, b')
      else (ci.1, b')

/-- The scan-and-mark pass of `create_settlement_batch`: returns the updated
transaction registry, the included ids, and the amount and fee totals. -/
def batchScan (now : Int) :
    List (String × AcquirerTransaction) →
      List (String × AcquirerTransaction) × List String × Int × Int
  | [] => ([], [], 0, 0)
  | (k, txn) :: rest =>
    if txn.settlement_status = .pending then
      ((k, { txn with settlement_status := SettlementStatus.batched, settlement_date := some (now + daysSec 2) }) :: (batchScan now rest).1,
       txn.transaction_id :: (batchScan now rest).2.1,
       txn.amount + (batchScan now rest).2.2.1,
       txn.fees + (batchScan now rest).2.2.2)
    else
      ((k, txn) :: (batchScan now rest).1, (batchScan now rest).2.1,
       (batchScan now rest).2.2.1, (batchScan now rest).2.2.2)

/-- `AcquiringBank.create_settlement_batch`, with the generated batch id and
clock as parameters. -/
def AcquiringBank.create_settlement_batch (b : AcquiringBank) (batch_id : String)
    (now : Int) : SettlementBatch × AcquiringBank :=
  let r := batchScan now b.transactions
  let batch : SettlementBatch :=
    { id := batch_id, transactions := r.2.1, total_amount := r.2.2.1,
      total_fees := r.2.2.2, net_amount := r.2.2.1 - r.2.2.2, created_at := now }
  (batch, { b with transactions := r.1, batches := b.batches ++ [batch] })

/-- `Except.isOk` as used in the claim statements. -/
def isOkE {eT aT : Type} : Except eT aT → Bool
  | .ok _ => true
  | .error _ => false

/-! ### Concrete idempotency and gateway data (witnesses and counterexamples) -/

def paramsA : ReqParams := { token_id := "tok_1", amount := 9900, currency := "usd" }

def paramsB : ReqParams := { token_id := "tok_2", amount := 5000, currency := "usd" }

/-- A live completed record for key `k1`, cached under `paramsA`. -/
def recA : IdemRecord String :=
  { key := "k1", status := .completed, request_hash := hashParams paramsA,
    result := some "cached", created_at := 0, expires_at := 100 }

def storeA : IdemStore String := [("k1", recA)]

/-- A counting operation: the state is the number of invocations so far. -/
def opCount : Nat → Except PyErr String × Nat := fun n => (.ok "fresh", n + 1)

/-- An active authorization that timed out at 100. -/
def authStale : Authorization :=
  { id := "auth_stale", amount := 5000, currency := "usd", status := .active,
    card_last_four := "4242", card_brand := "visa", created_at := 0, expires_at := 100,
    auth_code := some "ABC123" }

def coreStale : GatewayCore := ⟨[], [("auth_stale", authStale)], []⟩

/-- An active authorization still inside its hold window. -/
def authLive : Authorization := { authStale with id := "auth_live", expires_at := 1000 }

def coreLive : GatewayCore := ⟨[], [("auth_live", authLive)], []⟩

def tok1 : TokenRec :=
  { id := "tok_1", card_number := "4242424242424242", card_last_four := "4242",
    card_brand := "visa" }

def core0 : GatewayCore := ⟨[("tok_1", tok1)], [], []⟩

def invalidLowErr : PyErr := ⟨"InvalidAmountError", "Amount must be at least 50 cents"⟩

/-- First call: `create_charge` under key `idem_k` with the invalid amount 10. -/
def chargeStep1 : FlowResult :=
  AuthorizationService.create_charge core0 [] "tok_1" 10 "usd" true "m" none
    (some "idem_k") 0 "ch_1" "au_1"

/-- Second call: same key, corrected amount 9900. -/
def chargeStep2 : FlowResult :=
  AuthorizationService.create_charge core0 chargeStep1.idem "tok_1" 9900 "usd" true "m"
    none (some "idem_k") 0 "ch_2" "au_2"

/-! ### Concrete network and acquirer data (witnesses and counterexamples) -/

/-- The Mastercard test account of `_setup_test_accounts`. -/
def acctMC : CardAccount :=
  { card_number := "5555555555554444", cardholder_name := "Test MC Success",
    exp_month := 12, exp_year := 2025, cvv := "123" }

def merchDemo : MerchantAccount :=
  { merchant_id := "merch_demo123", business_name := "Demo Store" }

def visaIssuerC6 : IssuingBank :=
  ⟨"Demo Issuing Bank", [("4242424242424242", acct4242)], []⟩

def visaNetC6 : CardNetwork := ⟨.visa, [("default", visaIssuerC6)], []⟩

def mcIssuerC6 : IssuingBank :=
  ⟨"Demo Issuing Bank", [("5555555555554444", acctMC)], []⟩

def mcNetC6 : CardNetwork := ⟨.mastercard, [("default", mcIssuerC6)], []⟩

/-- A $100 Mastercard authorization routed on the Mastercard network,
producing network transaction `nt_mc1`. -/
def mcRouted : RouteResult × CardNetwork :=
  mcNetC6.route_authorization "Demo Acquiring Bank" "5555555555554444" 12 2025 "123"
    10000 "USD" "merch_demo123" "Demo Store" "5411" "nt_mc1" demoNow

def acqTxnMC : AcquirerTransaction :=
  { transaction_id := "txn_mc", merchant_id := "merch_demo123",
    network_transaction_id := "nt_mc1", amount := 10000, currency := "USD",
    fees := 320, net_amount := 9680, settlement_status := .pending,
    created_at := demoNow }

/-- Acquirer state whose recorded transaction was authorized on the
*Mastercard* network (the second registered one). -/
def acqBankMC : AcquiringBank :=
  ⟨"Demo Acquiring Bank", [("merch_demo123", merchDemo)], [visaNetC6, mcRouted.2],
   [("txn_mc", acqTxnMC)], []⟩

/-- A $100 Visa authorization routed on the Visa network. -/
def visaRouted : RouteResult × CardNetwork :=
  visaNetC6.route_authorization "Demo Acquiring Bank" "4242424242424242" 12 2025 "123"
    10000 "USD" "merch_demo123" "Demo Store" "5411" "nt_v1" demoNow

def acqTxnV : AcquirerTransaction :=
  { transaction_id := "txn_v", merchant_id := "merch_demo123",
    network_transaction_id := "nt_v1", amount := 10000, currency := "USD",
    fees := 320, net_amount := 9680, settlement_status := .pending,
    created_at := demoNow }

/-- Acquirer state whose recorded transaction was authorized on the Visa
network (the first registered one). -/
def acqBankV : AcquiringBank :=
  ⟨"Demo Acquiring Bank", [("merch_demo123", merchDemo)], [visaRouted.2, mcNetC6],
   [("txn_v", acqTxnV)], []⟩

/-- The two pending transactions of the settlement scenario:
(amount 10000, fee 320) and (amount 5000, fee 175). -/
def acqTxnP1 : AcquirerTransaction :=
  { transaction_id := "t1", merchant_id := "m1", network_transaction_id := "n1",
    amount := 10000, currency := "USD", fees := 320, net_amount := 9680,
    settlement_status := .pending }

def acqTxnP2 : AcquirerTransaction :=
  { transaction_id := "t2", merchant_id := "m1", network_transaction_id := "n2",
    amount := 5000, currency := "USD", fees := 175, net_amount := 4825,
    settlement_status := .pending }

def acqBankTwoPending : AcquiringBank :=
  ⟨"B", [], [], [("t1", acqTxnP1), ("t2", acqTxnP2)], []⟩

/-- The demo account carrying an authorized hold `nt_1`. -/
def acctHoldNet : CardAccount := { acct4242 with holds := [("nt_1", 5000)] }

def issuerHold : IssuingBank :=
  ⟨"Demo Issuing Bank", [("4242424242424242", acctHoldNet)], []⟩

def netTxn1 : NetworkTransaction :=
  { transaction_id := "nt_1", network := .visa, acquirer_id := "acq",
    issuer_id := "default", amount := 5000, currency := "USD",
    auth_code := some "ABC123", status := "approved", created_at := 0,
    merchant_id := "m", decline_reason := none, interchange_fee := 100,
    assessment_fee := 6 }

/-- A Visa network whose log holds the approved transaction `nt_1` and whose
issuer holds the matching $50 hold. -/
def visaNetHold : CardNetwork := ⟨.visa, [("default", issuerHold)], [("nt_1", netTxn1)]⟩

/-! ## Association-list lemmas -/

theorem alookup_ainsert_self {β : Type} (k : String) (v : β) (l : List (String × β)) :
    alookup k (ainsert k v l) = some v := by
  induction l with
  | nil => simp [ainsert, alookup]
  | cons p rest ih =>
    obtain ⟨k', v'⟩ := p
    by_cases h : k' = k <;> simp [ainsert, alookup, h, ih]

theorem alookup_ainsert_ne {β : Type} (k k₂ : String) (v : β) (l : List (String × β))
    (h : k ≠ k₂) : alookup k₂ (ainsert k v l) = alookup k₂ l := by
  induction l with
  | nil => simp [ainsert, alookup, h]
  | cons p rest ih =>
    obtain ⟨k', v'⟩ := p
    by_cases h' : k' = k
    · subst h'; simp [ainsert, alookup, h]
    · simp [ainsert, alookup, h', ih]

theorem mem_ainsert {β : Type} (p : String × β) (k : String) (v : β) (l : List (String × β)) :
    p ∈ ainsert k v l → p = (k, v) ∨ p ∈ l := by
  induction l with
  | nil => intro hp; simp only [ainsert, List.mem_singleton] at hp; exact Or.inl hp
  | cons q rest ih =>
    obtain ⟨k', v'⟩ := q
    intro hp
    by_cases h : k' = k
    · simp only [ainsert, if_pos h] at hp
      rcases List.mem_cons.mp hp with h1 | h2
      · exact Or.inl h1
      · exact Or.inr (List.mem_cons_of_mem _ h2)
    · simp only [ainsert, if_neg h] at hp
      rcases List.mem_cons.mp hp with h1 | h2
      · exact Or.inr (h1 ▸ List.mem_cons_self _ _)
      · rcases ih h2 with h3 | h4
        · exact Or.inl h3
        · exact Or.inr (List.mem_cons_of_mem _ h4)

theorem mem_aerase {β : Type} (p : String × β) (k : String) (l : List (String × β)) :
    p ∈ aerase k l → p ∈ l := by
  induction l with
  | nil => intro hp; simp [aerase] at hp
  | cons q rest ih =>
    obtain ⟨k', v'⟩ := q
    intro hp
    by_cases h : k' = k
    · simp only [aerase, if_pos h] at hp
      exact List.mem_cons_of_mem _ hp
    · simp only [aerase, if_neg h] at hp
      rcases List.mem_cons.mp hp with h1 | h2
      · exact h1 ▸ List.mem_cons_self _ _
      · exact List.mem_cons_of_mem _ (ih h2)

theorem alookup_mem {β : Type} (k : String) (v : β) (l : List (String × β)) :
    alookup k l = some v → (k, v) ∈ l := by
  induction l with
  | nil => intro hp; simp [alookup] at hp
  | cons q rest ih =>
    obtain ⟨k', v'⟩ := q
    intro hp
    by_cases h : k' = k
    · simp only [alookup, if_pos h] at hp
      obtain rfl := Option.some.inj hp
      exact h ▸ List.mem_cons_self _ _
    · simp only [alookup, if_neg h] at hp
      exact List.mem_cons_of_mem _ (ih hp)

/-- Sum of the values of an association list (e.g. `sum(holds.values())`). -/

theorem avsum_ainsert (k : String) (v : Int) (l : List (String × Int)) :
    avsum (ainsert k v l) = avsum l + v - (alookup k l).getD 0 := by
  induction l with
  | nil => simp [ainsert, avsum, alookup]
  | cons p rest ih =>
    obtain ⟨k', v'⟩ := p
    by_cases h : k' = k
    · subst h; simp [ainsert, avsum, alookup]; ring
    · simp [ainsert, avsum, alookup, h, ih]; ring

theorem avsum_aerase (k : String) (h₀ : Int) (l : List (String × Int))
    (hl : alookup k l = some h₀) : avsum (aerase k l) = avsum l - h₀ := by
  induction l with
  | nil => simp [alookup] at hl
  | cons p rest ih =>
    obtain ⟨k', v'⟩ := p
    by_cases h : k' = k
    · simp only [alookup, if_pos h] at hl
      obtain rfl := Option.some.inj hl
      simp [aerase, avsum, h]
    · simp only [alookup, if_neg h] at hl
      simp [aerase, avsum, h, ih hl]; ring

theorem alookup_getD_nonneg (k : String) (l : List (String × Int))
    (h : ∀ p ∈ l, 0 ≤ p.2) : 0 ≤ (alookup k l).getD 0 := by
  induction l with
  | nil => simp [alookup]
  | cons p rest ih =>
    obtain ⟨k', v'⟩ := p
    by_cases hk : k' = k
    · subst hk; simpa [alookup] using h (k', v') (List.mem_cons_self _ _)
    · simp only [alookup, if_neg hk]
      exact ih fun q hq => h q (List.mem_cons_of_mem _ hq)

theorem alookup_eq_none_of_not_mem (k : String) {β : Type} (l : List (String × β))
    (h : k ∉ l.map Prod.fst) : alookup k l = none := by
  induction l with
  | nil => rfl
  | cons p rest ih =>
    obtain ⟨k', v'⟩ := p
    simp only [List.map_cons, List.mem_cons] at h
    push_neg at h
    have hne : k' ≠ k := fun hk => h.1 hk.symm
    simp only [alookup, if_neg hne]
    exact ih h.2

theorem alookup_aerase_self (k : String) {β : Type} (l : List (String × β))
    (hnd : (l.map Prod.fst).Nodup) : alookup k (aerase k l) = none := by
  induction l with
  | nil => rfl
  | cons p rest ih =>
    obtain ⟨k', v'⟩ := p
    simp only [List.map_cons, List.nodup_cons] at hnd
    by_cases h : k' = k
    · subst h
      simp only [aerase, if_pos rfl]
      exact alookup_eq_none_of_not_mem _ _ hnd.1
    · simp only [aerase, if_neg h, alookup, if_neg h]
      exact ih hnd.2

/-! ## Issuing-bank preservation lemmas -/

theorem record_transaction_accounts (b : IssuingBank) (c : String) (now : Int) :
    (b.record_transaction c now).accounts = b.accounts := rfl

/-- The available funds after inserting a hold. -/
theorem available_ainsert_hold (a : CardAccount) (rid : String) (amt : Int) :
    CardAccount.available { a with holds := ainsert rid amt a.holds }
      = a.available - amt + (alookup rid a.holds).getD 0 := by
  unfold CardAccount.available CardAccount.available_credit CardAccount.available_balance
    CardAccount.holds_total
  by_cases h : a.account_type = .credit <;> simp [h, avsum_ainsert] <;> ring

/-- `apply_capture` leaves the holds as `aerase auth_id`. -/
theorem apply_capture_holds (a : CardAccount) (auth_id : String) (amount : Int) :
    (a.apply_capture auth_id amount).holds = aerase auth_id a.holds := by
  unfold CardAccount.apply_capture
  by_cases h : a.account_type = .credit <;> simp [h]

theorem apply_capture_balances (a : CardAccount) (auth_id : String) (amount : Int) :
    (a.apply_capture auth_id amount).current_balance
        = (if a.account_type = .credit then a.current_balance + amount else a.current_balance)
      ∧ (a.apply_capture auth_id amount).account_balance
        = (if a.account_type = .credit then a.account_balance else a.account_balance - amount) := by
  unfold CardAccount.apply_capture
  by_cases h : a.account_type = .credit <;> simp [h]

theorem apply_capture_available (a : CardAccount) (auth_id : String) (amount held : Int)
    (hh : alookup auth_id a.holds = some held) :
    (a.apply_capture auth_id amount).available = a.available + held - amount := by
  unfold CardAccount.apply_capture CardAccount.available CardAccount.available_credit
    CardAccount.available_balance CardAccount.holds_total
  by_cases h : a.account_type = .credit <;> simp [h, avsum_aerase _ _ _ hh] <;> ring

theorem apply_capture_inv (a : CardAccount) (auth_id : String) (amount held : Int)
    (hh : alookup auth_id a.holds = some held) (hle : amount ≤ held) (ha : a.inv) :
    (a.apply_capture auth_id amount).inv := by
  constructor
  · rw [apply_capture_available a auth_id amount held hh]
    have := ha.1
    linarith
  · intro p hp
    rw [apply_capture_holds] at hp
    exact ha.2 p (mem_aerase _ _ _ hp)

theorem captureScan_inv (auth_id : String) (amount : Int) (l : List (String × CardAccount))
    (hl : ∀ p ∈ l, p.2.inv) : ∀ p ∈ (captureScan auth_id amount l).2, p.2.inv := by
  induction l with
  | nil => simp [captureScan]
  | cons q rest ih =>
    obtain ⟨k, a⟩ := q
    have ha : CardAccount.inv a := hl (k, a) (List.mem_cons_self _ _)
    have hrest : ∀ p ∈ rest, CardAccount.inv p.2 :=
      fun p hp => hl p (List.mem_cons_of_mem _ hp)
    intro p hp
    cases hh : alookup auth_id a.holds with
    | some held =>
      by_cases hgt : amount > held
      · simp only [captureScan, hh, if_pos hgt] at hp
        exact hl p hp
      · simp only [captureScan, hh, if_neg hgt] at hp
        rcases List.mem_cons.mp hp with rfl | hmem
        · exact apply_capture_inv a auth_id amount held hh (not_lt.mp hgt) ha
        · exact hrest p hmem
    | none =>
      simp only [captureScan, hh] at hp
      rcases List.mem_cons.mp hp with rfl | hmem
      · exact ha
      · exact ih hrest p hmem

theorem voidScan_inv (auth_id : String) (l : List (String × CardAccount))
    (hl : ∀ p ∈ l, p.2.inv) : ∀ p ∈ (voidScan auth_id l).2, p.2.inv := by
  induction l with
  | nil => simp [voidScan]
  | cons q rest ih =>
    obtain ⟨k, a⟩ := q
    have ha : CardAccount.inv a := hl (k, a) (List.mem_cons_self _ _)
    have hrest : ∀ p ∈ rest, CardAccount.inv p.2 :=
      fun p hp => hl p (List.mem_cons_of_mem _ hp)
    intro p hp
    cases hh : alookup auth_id a.holds with
    | some held =>
      simp only [voidScan, hh] at hp
      rcases List.mem_cons.mp hp with rfl | hmem
      · constructor
        · have havail : CardAccount.available { a with holds := aerase auth_id a.holds }
              = a.available + held := by
            unfold CardAccount.available CardAccount.available_credit
              CardAccount.available_balance CardAccount.holds_total
            by_cases h : a.account_type = .credit <;>
              simp [h, avsum_aerase _ _ _ hh] <;> ring
          rw [havail]
          have hheld : 0 ≤ held := ha.2 (auth_id, held) (alookup_mem _ _ _ hh)
          have := ha.1
          linarith
        · intro q hq
          exact ha.2 q (mem_aerase _ _ _ hq)
      · exact hrest p hmem
    | none =>
      simp only [voidScan, hh] at hp
      rcases List.mem_cons.mp hp with rfl | hmem
      · exact ha
      · exact ih hrest p hmem

theorem authorize_inv (b : IssuingBank) (req : AuthorizationRequest) (now : Int)
    (hb : b.inv) (hamt : 0 ≤ req.amount) : (b.authorize req now).2.inv := by
  cases h : alookup req.card_number b.accounts with
  | none => simpa [IssuingBank.authorize, h] using hb
  | some account =>
    have hacc : account.inv := hb _ (alookup_mem _ _ _ h)
    simp only [IssuingBank.authorize, h]
    split_ifs with h1 h2 h3 h4 h5 h6 h7 h8
    any_goals exact hb
    -- approved branch
    intro p hp
    rw [record_transaction_accounts] at hp
    rcases mem_ainsert _ _ _ _ hp with rfl | hmem
    · constructor
      · rw [available_ainsert_hold]
        have hle : req.amount ≤ account.available := not_lt.mp h7
        have hold_nonneg : 0 ≤ (alookup req.request_id account.holds).getD 0 :=
          alookup_getD_nonneg _ _ hacc.2
        linarith
      · intro q hq
        rcases mem_ainsert _ _ _ _ hq with rfl | hqmem
        · exact hamt
        · exact hacc.2 q hqmem
    · exact hb p hmem

theorem applyOp_inv (b : IssuingBank) (op : BankOp)
    (hb : b.inv) (hop : op.amountOK = true) : (b.applyOp op).inv := by
  cases op with
  | auth req now =>
    have : (0 : Int) ≤ req.amount := by simpa [BankOp.amountOK] using hop
    exact authorize_inv b req now hb this
  | cap auth_id amount =>
    intro p hp
    exact captureScan_inv auth_id amount b.accounts hb p hp
  | void auth_id =>
    intro p hp
    exact voidScan_inv auth_id b.accounts hb p hp

theorem applyOps_inv (b : IssuingBank) (ops : List BankOp)
    (hb : b.inv) (hops : ∀ op ∈ ops, op.amountOK = true) : (b.applyOps ops).inv := by
  induction ops generalizing b with
  | nil => exact hb
  | cons op rest ih =>
    exact ih (b.applyOp op) (applyOp_inv b op hb (hops op (List.mem_cons_self _ _)))
      (fun o ho => hops o (List.mem_cons_of_mem _ ho))

/-! ## Claim theorems: issuing bank -/

/-- **C1** (amended). For every issuing-bank state whose accounts all have
non-negative available funds *and non-negative hold amounts*, and every finite
sequence of authorize / capture / void operations *whose authorize requests
carry non-negative amounts*, after each operation (i.e. after every prefix of
the sequence) every account's available funds remain `≥ 0`. -/
theorem C1_available_nonneg (b : IssuingBank) (ops : List BankOp)
    (hb : b.inv) (hops : ∀ op ∈ ops, op.amountOK = true) (n : Nat) :
    ∀ p ∈ (b.applyOps (ops.take n)).accounts, 0 ≤ p.2.available := by
  have h := applyOps_inv b (ops.take n) hb
    (fun op hop => hops op (List.take_subset n ops hop))
  exact fun p hp => (h p hp).1

/-- Witness for C1: the authorize-then-capture scenario on the demo account. -/
theorem C1_witness :
    (demoBank.applyOps (opsDemo.take 2)).accounts.all (fun p => decide (0 ≤ p.2.available)) = true := by
  have h := C1_available_nonneg demoBank opsDemo (by decide) (by decide) 2
  rw [List.all_eq_true]
  intro p hp
  exact decide_eq_true (h p hp)

/-- **C1, counterexample.** The claim as stated (hypothesis: available funds
non-negative initially) fails: starting from a pristine credit account with
empty holds and available `100 ≥ 0`, the sequence
authorize(amount = -5), authorize(amount = 105), void(first hold) is accepted
by the code and leaves available `= -5 < 0`. Negative amounts are valid Python
ints and pass every decline check. -/
theorem C1_counterexample :
    (∀ p ∈ bankCex.accounts, 0 ≤ p.2.available)
    ∧ ∃ p ∈ (bankCex.applyOps opsCex).accounts, p.2.available < 0 := by decide

set_option maxHeartbeats 2000000 in
/-- **C3** (amended). `IssuingBank.authorize` evaluates its decline checks in
exactly the claimed order with the first match determining the decline code,
*except* that the expiry grace period runs 31 days from the first day of the
expiry month (so for months shorter than 31 days it extends a few days past
the end of the expiry month); when every check passes it creates a hold keyed
by the request id, records a velocity timestamp, and returns approved with a
generated auth code. -/
theorem C3_authorize_order (b : IssuingBank) (req : AuthorizationRequest) (now : Int) :
    outcomeOf (b.authorize req now).1 = amendedAuthOutcome b req now
    ∧ ((b.authorize req now).1.approved = true →
        ∃ account, alookup req.card_number b.accounts = some account
          ∧ (b.authorize req now).1.auth_code = some genAuthCode
          ∧ (b.authorize req now).2 = IssuingBank.record_transaction { b with accounts := ainsert req.card_number { account with holds := ainsert req.request_id req.amount account.holds } b.accounts } req.card_number now) := by
  constructor
  · cases h : alookup req.card_number b.accounts with
    | none =>
      simp [IssuingBank.authorize, amendedAuthOutcome, declineCascade, h, outcomeOf,
        declineResponse]
    | some account =>
      simp only [IssuingBank.authorize, amendedAuthOutcome, declineCascade, h]
      split_ifs <;> simp [outcomeOf, declineResponse]
  · intro happ
    cases h : alookup req.card_number b.accounts with
    | none => simp [IssuingBank.authorize, h, declineResponse] at happ
    | some account =>
      refine ⟨account, rfl, ?_⟩
      simp only [IssuingBank.authorize, h] at happ ⊢
      split_ifs at happ ⊢ <;> first | exact ⟨rfl, rfl⟩ | simp [declineResponse] at happ

/-- Witness for C3: the demo request is approved and produces the described
hold and velocity record. -/
theorem C3_witness :
    outcomeOf (demoBank.authorize demoReq demoNow).1 = amendedAuthOutcome demoBank demoReq demoNow
    ∧ ∃ account, alookup demoReq.card_number demoBank.accounts = some account
        ∧ (demoBank.authorize demoReq demoNow).1.auth_code = some genAuthCode
        ∧ (demoBank.authorize demoReq demoNow).2 = IssuingBank.record_transaction { demoBank with accounts := ainsert demoReq.card_number { account with holds := ainsert demoReq.request_id demoReq.amount account.holds } demoBank.accounts } demoReq.card_number demoNow :=
  ⟨(C3_authorize_order demoBank demoReq demoNow).1,
    (C3_authorize_order demoBank demoReq demoNow).2 (by decide)⟩

/-- **C3, counterexample.** A card that expired February 2025, presented on
2025-03-02: the claim's cascade (grace ending at the end of the expiry month)
declines it with `expired_card`, but the code approves it, because the actual
grace runs to March 4 (February 1 plus 31 days). -/
theorem C3_counterexample :
    outcomeOf (bankFeb.authorize reqFeb nowMar2).1 ≠ claimAuthOutcome bankFeb reqFeb nowMar2
    ∧ claimAuthOutcome bankFeb reqFeb nowMar2 = .declinedOut "expired_card"
    ∧ outcomeOf (bankFeb.authorize reqFeb nowMar2).1 = .approvedOut := by decide

/-! ## Capture characterization (claim C4) -/

theorem captureScan_of_no_holder (auth_id : String) (amount : Int)
    (l : List (String × CardAccount)) (h : findHolder auth_id l = none) :
    captureScan auth_id amount l = (false, l) := by
  induction l with
  | nil => rfl
  | cons p rest ih =>
    obtain ⟨k, a⟩ := p
    cases hh : alookup auth_id a.holds with
    | some held => simp [findHolder, hh] at h
    | none =>
      simp only [findHolder, hh] at h
      simp [captureScan, hh, ih h]

theorem captureScan_of_holder (auth_id : String) (amount : Int)
    (l : List (String × CardAccount)) (k : String) (a : CardAccount) (held : Int)
    (h : findHolder auth_id l = some (k, a, held)) :
    (amount > held → captureScan auth_id amount l = (false, l))
    ∧ (amount ≤ held → ∃ pre post, l = pre ++ (k, a) :: post
        ∧ findHolder auth_id pre = none
        ∧ captureScan auth_id amount l
            = (true, pre ++ (k, a.apply_capture auth_id amount) :: post)) := by
  induction l with
  | nil => simp [findHolder] at h
  | cons p rest ih =>
    obtain ⟨k', a'⟩ := p
    cases hh : alookup auth_id a'.holds with
    | some held' =>
      simp only [findHolder, hh, Option.some.injEq, Prod.mk.injEq] at h
      obtain ⟨rfl, rfl, rfl⟩ := h
      constructor
      · intro hgt
        simp [captureScan, hh, if_pos hgt]
      · intro hle
        refine ⟨[], rest, rfl, rfl, ?_⟩
        simp only [captureScan, hh]
        rw [if_neg (not_lt.mpr hle)]
        simp
    | none =>
      simp only [findHolder, hh] at h
      obtain ⟨h1, h2⟩ := ih h
      constructor
      · intro hgt
        simp [captureScan, hh, h1 hgt]
      · intro hle
        obtain ⟨pre, post, rfl, hpre, hcs⟩ := h2 hle
        refine ⟨(k', a') :: pre, post, rfl, ?_, ?_⟩
        · simp [findHolder, hh, hpre]
        · simp [captureScan, hh, hcs]

/-- **C4** (as claimed). `IssuingBank.capture(hold_id, amount)` fails exactly
when no account holds `hold_id` (in the scan order of the account registry) or
the amount exceeds the held amount; on success it removes the entire hold -
even for a partial capture - and adds the amount to `current_balance` for
credit accounts or subtracts it from `account_balance` for debit/prepaid
accounts, leaving every other account untouched. -/
theorem C4_capture_spec (b : IssuingBank) (auth_id : String) (amount : Int) :
    ((b.capture auth_id amount).1 = false ↔
        findHolder auth_id b.accounts = none
        ∨ ∃ k a held, findHolder auth_id b.accounts = some (k, a, held) ∧ held < amount)
    ∧ (∀ k a held, findHolder auth_id b.accounts = some (k, a, held) → amount ≤ held →
        (b.capture auth_id amount).1 = true
        ∧ (∃ pre post, b.accounts = pre ++ (k, a) :: post ∧ findHolder auth_id pre = none
            ∧ (b.capture auth_id amount).2.accounts
                = pre ++ (k, a.apply_capture auth_id amount) :: post)
        ∧ ((a.holds.map Prod.fst).Nodup →
            alookup auth_id (a.apply_capture auth_id amount).holds = none)
        ∧ (a.apply_capture auth_id amount).current_balance
            = (if a.account_type = .credit then a.current_balance + amount
               else a.current_balance)
        ∧ (a.apply_capture auth_id amount).account_balance
            = (if a.account_type = .credit then a.account_balance
               else a.account_balance - amount)) := by
  constructor
  · cases h : findHolder auth_id b.accounts with
    | none =>
      simp [IssuingBank.capture, captureScan_of_no_holder auth_id amount _ h]
    | some t =>
      obtain ⟨k, a, held⟩ := t
      by_cases hgt : amount > held
      · have hcs := (captureScan_of_holder auth_id amount _ k a held h).1 hgt
        refine ⟨fun _ => Or.inr ⟨k, a, held, rfl, hgt⟩, fun _ => ?_⟩
        simp [IssuingBank.capture, hcs]
      · have hle : amount ≤ held := not_lt.mp hgt
        obtain ⟨pre, post, _, _, hcs⟩ :=
          (captureScan_of_holder auth_id amount _ k a held h).2 hle
        refine ⟨fun hfalse => ?_, fun hrhs => ?_⟩
        · simp [IssuingBank.capture, hcs] at hfalse
        · rcases hrhs with hnone | ⟨k', a', held', heq, hgt'⟩
          · exact absurd hnone (by simp)
          · obtain ⟨rfl, rfl, rfl⟩ : k = k' ∧ a = a' ∧ held = held' := by
              simpa [Prod.mk.injEq] using heq
            exact absurd hgt' (not_lt.mpr hle)
  · intro k a held h hle
    obtain ⟨pre, post, hsplit, hpre, hcs⟩ :=
      (captureScan_of_holder auth_id amount _ k a held h).2 hle
    refine ⟨by simp [IssuingBank.capture, hcs],
      ⟨pre, post, hsplit, hpre, by simp [IssuingBank.capture, hcs]⟩, ?_,
      apply_capture_balances a auth_id amount⟩
    intro hnd
    rw [apply_capture_holds]
    exact alookup_aerase_self _ _ hnd

/-- Witness for C4: a $40 partial capture against the $50 hold on the demo
account succeeds and removes the hold entirely. -/
theorem C4_witness :
    (bankHold.capture "auth_001" 4000).1 = true
    ∧ alookup "auth_001" (acctHold.apply_capture "auth_001" 4000).holds = none :=
  ⟨((C4_capture_spec bankHold "auth_001" 4000).2 "4242424242424242" acctHold 5000
      (by decide) (by decide)).1,
   ((C4_capture_spec bankHold "auth_001" 4000).2 "4242424242424242" acctHold 5000
      (by decide) (by decide)).2.2.1 (by decide)⟩

/-! ## Idempotency lemmas and claim C2 -/

theorem execute_existing {σ α : Type} (s : IdemStore α) (key : String)
    (params : ReqParams) (op : σ → Except PyErr α × σ) (st : σ) (now : Int)
    (r : IdemRecord α) (hr : alookup key s = some r)
    (hlive : r.is_expired now = false) :
    IdempotencyService.execute s key params op st now
      = ⟨handle_existing_record r (hashParams params), s, st, false⟩ := by
  simp [IdempotencyService.execute, storeGet, hr, hlive]

theorem execute_fresh {σ α : Type} (s : IdemStore α) (key : String)
    (params : ReqParams) (op : σ → Except PyErr α × σ) (st : σ) (now : Int)
    (h : alookup key s = none) :
    (IdempotencyService.execute s key params op st now).invoked = true
    ∧ goodRecord (IdempotencyService.execute s key params op st now).store key params now := by
  have hget : storeGet s key now = (none, s) := by simp [storeGet, h]
  rcases hop : op st with ⟨res, st'⟩
  cases res with
  | ok v =>
    have hexec : IdempotencyService.execute s key params op st now
        = ⟨.ok (some v), storeSet (storeSet s ⟨key, .pending, hashParams params, none, none, now, now + ttlSeconds⟩) ⟨key, .completed, hashParams params, some v, none, now, now + ttlSeconds⟩, st', true⟩ := by
      simp [IdempotencyService.execute, hget, hop]
    rw [hexec]
    refine ⟨rfl, ⟨key, .completed, hashParams params, some v, none, now, now + ttlSeconds⟩,
      ?_, ?_, rfl, by simp⟩
    · simp [storeSet, alookup_ainsert_self]
    · simp only [IdemRecord.is_expired, ttlSeconds, decide_eq_false_iff_not, not_lt]
      omega
  | error e =>
    have hexec : IdempotencyService.execute s key params op st now
        = ⟨.raised e, storeSet (storeSet s ⟨key, .pending, hashParams params, none, none, now, now + ttlSeconds⟩) ⟨key, .failed, hashParams params, none, some e, now, now + ttlSeconds⟩, st', true⟩ := by
      simp [IdempotencyService.execute, hget, hop]
    rw [hexec]
    refine ⟨rfl, ⟨key, .failed, hashParams params, none, some e, now, now + ttlSeconds⟩,
      ?_, ?_, rfl, by simp⟩
    · simp [storeSet, alookup_ainsert_self]
    · simp only [IdemRecord.is_expired, ttlSeconds, decide_eq_false_iff_not, not_lt]
      omega

theorem execute_good {σ α : Type} (s : IdemStore α) (key : String)
    (params : ReqParams) (op : σ → Except PyErr α × σ) (st : σ) (now : Int)
    (h : goodRecord s key params now) :
    (IdempotencyService.execute s key params op st now).invoked = false
    ∧ (IdempotencyService.execute s key params op st now).store = s
    ∧ (IdempotencyService.execute s key params op st now).state = st := by
  obtain ⟨r, hr, hlive, _, _⟩ := h
  rw [execute_existing s key params op st now r hr hlive]
  exact ⟨rfl, rfl, rfl⟩

theorem execN_good {σ α : Type} (key : String) (params : ReqParams)
    (op : σ → Except PyErr α × σ) (now : Int) (n : Nat) (s : IdemStore α) (st : σ)
    (h : goodRecord s key params now) :
    (execN key params op now n s st).2.2 = 0 := by
  induction n generalizing s st with
  | zero => rfl
  | succ m ih =>
    obtain ⟨hinv, hstore, hstate⟩ := execute_good s key params op st now h
    simp only [execN, hinv, hstore, hstate]
    simpa using ih s st h

/-- **C2.** When `execute` finds a live (unexpired) record for the key it
never invokes the operation and dispatches on the record: parameter-hash
mismatch raises Conflict (checked first); a pending record raises InProgress;
a failed record re-raises the stored error; a completed record returns the
stored cached result.  Consequently `n + 1` sequential `execute` calls with
identical key, params and operation, starting from a store without the key,
run the underlying operation exactly once. -/
theorem C2_idempotent_execute {σ α : Type} (s : IdemStore α) (key : String)
    (params : ReqParams) (op : σ → Except PyErr α × σ) (st : σ) (now : Int) :
    (∀ r : IdemRecord α, alookup key s = some r → r.is_expired now = false →
      (IdempotencyService.execute s key params op st now).invoked = false
      ∧ (IdempotencyService.execute s key params op st now).state = st
      ∧ (r.request_hash ≠ hashParams params →
          (IdempotencyService.execute s key params op st now).outcome = .conflict)
      ∧ (r.request_hash = hashParams params → r.status = .pending →
          (IdempotencyService.execute s key params op st now).outcome = .inProgress)
      ∧ (r.request_hash = hashParams params → r.status = .failed →
          (IdempotencyService.execute s key params op st now).outcome
            = .failedPreviously (r.error.getD ⟨"", ""⟩))
      ∧ (r.request_hash = hashParams params → r.status = .completed →
          (IdempotencyService.execute s key params op st now).outcome = .ok r.result))
    ∧ (alookup key s = none → ∀ n : Nat,
        (execN key params op now (n + 1) s st).2.2 = 1) := by
  constructor
  · intro r hr hlive
    rw [execute_existing s key params op st now r hr hlive]
    refine ⟨rfl, rfl, ?_, ?_, ?_, ?_⟩
    · intro hne
      simp [handle_existing_record, hne]
    · intro heq hp
      simp [handle_existing_record, heq, hp]
    · intro heq hf
      simp [handle_existing_record, heq, hf]
    · intro heq hc
      simp [handle_existing_record, heq, hc]
  · intro hnone n
    obtain ⟨hinv, hgood⟩ := execute_fresh s key params op st now hnone
    simp only [execN, hinv]
    rw [execN_good key params op now n _ _ hgood]
    simp

/-- Witness for C2: a cached completed record short-circuits with the cached
result; a hash mismatch under the same key yields Conflict; three sequential
calls on a fresh key run the counting operation exactly once. -/
theorem C2_witness :
    (IdempotencyService.execute storeA "k1" paramsA opCount 0 50).outcome
        = .ok (some "cached")
    ∧ (IdempotencyService.execute storeA "k1" paramsB opCount 0 50).outcome = .conflict
    ∧ (execN "k2" paramsA opCount 50 3 storeA 0).2.2 = 1 :=
  ⟨((C2_idempotent_execute storeA "k1" paramsA opCount 0 50).1 recA rfl (by decide)).2.2.2.2.2
      (by decide) (by decide),
   ((C2_idempotent_execute storeA "k1" paramsB opCount 0 50).1 recA rfl (by decide)).2.2.1
      (by decide),
   (C2_idempotent_execute storeA "k2" paramsA opCount 0 50).2 (by decide) 2⟩

/-! ## Gateway authorization state machine (claim C5) -/

theorem can_capture_some_iff (a : Authorization) (v : Int) (now : Int) :
    a.can_capture (some v) now = true ↔
      a.status = .active ∧ now ≤ a.expires_at
        ∧ (v ≠ 0 → v ≤ a.amount - a.captured_amount) := by
  unfold Authorization.can_capture
  by_cases h1 : a.status = .active
  · by_cases h2 : now > a.expires_at
    · simp [h1, h2]
    · by_cases h3 : v = 0 <;> simp [h1, h2, h3, not_lt.mp h2]
  · simp [h1]

/-- **C5** (amended). The Authorization state machine the code implements:
`active → captured` via capture exactly when the effective capture amount
fits the remaining amount (with the `amount or auth.amount` fallback, and the
check skipped for a zero amount) and `now ≤ expires_at`; `active → voided`
via void *regardless of `expires_at`*; a capture attempted past `expires_at`
fails and leaves the record unchanged (still `active`); the status `expired`
is never assigned by any operation; and once a record is non-active, capture
and void both fail and change nothing. -/
theorem C5_state_machine (c : GatewayCore) (authorization_id : String)
    (amount : Option Int) (now : Int) (freshChargeId : String) :
    (isOkE (AuthorizationService.do_capture c authorization_id amount now freshChargeId).1 = true ↔
      ∃ a, alookup authorization_id c.authorizations = some a ∧ a.status = .active
        ∧ now ≤ a.expires_at
        ∧ (captureAmountOf a amount ≠ 0 →
            captureAmountOf a amount ≤ a.amount - a.captured_amount))
    ∧ (∀ a, alookup authorization_id c.authorizations = some a →
        isOkE (AuthorizationService.do_capture c authorization_id amount now freshChargeId).1 = true →
        alookup authorization_id (AuthorizationService.do_capture c authorization_id amount now freshChargeId).2.authorizations
          = some { a with status := GAuthStatus.captured, captured_amount := captureAmountOf a amount, captured_at := some now })
    ∧ (isOkE (AuthorizationService.void c authorization_id now).1 = true ↔
        ∃ a, alookup authorization_id c.authorizations = some a ∧ a.status = .active)
    ∧ (∀ a, alookup authorization_id c.authorizations = some a →
        isOkE (AuthorizationService.void c authorization_id now).1 = true →
        alookup authorization_id (AuthorizationService.void c authorization_id now).2.authorizations
          = some { a with status := GAuthStatus.voided, voided_at := some now })
    ∧ (isOkE (AuthorizationService.do_capture c authorization_id amount now freshChargeId).1 = false →
        (AuthorizationService.do_capture c authorization_id amount now freshChargeId).2 = c)
    ∧ (isOkE (AuthorizationService.void c authorization_id now).1 = false →
        (AuthorizationService.void c authorization_id now).2 = c)
    ∧ (∀ t a', alookup t (AuthorizationService.do_capture c authorization_id amount now freshChargeId).2.authorizations = some a' →
        a'.status = .expired → alookup t c.authorizations = some a')
    ∧ (∀ t a', alookup t (AuthorizationService.void c authorization_id now).2.authorizations = some a' →
        a'.status = .expired → alookup t c.authorizations = some a') := by
  cases h : alookup authorization_id c.authorizations with
  | none =>
    refine ⟨by simp [AuthorizationService.do_capture, h, isOkE],
      by intro a ha; simp [h] at ha,
      by simp [AuthorizationService.void, h, isOkE],
      by intro a ha; simp [h] at ha,
      by intro _; simp [AuthorizationService.do_capture, h],
      by intro _; simp [AuthorizationService.void, h],
      by intro t a' ht _; simpa [AuthorizationService.do_capture, h] using ht,
      by intro t a' ht _; simpa [AuthorizationService.void, h] using ht⟩
  | some auth =>
    have capT : auth.can_capture (some (captureAmountOf auth amount)) now = true →
        isOkE (AuthorizationService.do_capture c authorization_id amount now freshChargeId).1 = true
        ∧ (AuthorizationService.do_capture c authorization_id amount now freshChargeId).2.authorizations
            = ainsert authorization_id { auth with status := GAuthStatus.captured, captured_amount := captureAmountOf auth amount, captured_at := some now } c.authorizations := by
      intro hcc
      constructor <;> simp [AuthorizationService.do_capture, h, hcc, isOkE]
    have capF : auth.can_capture (some (captureAmountOf auth amount)) now = false →
        isOkE (AuthorizationService.do_capture c authorization_id amount now freshChargeId).1 = false
        ∧ (AuthorizationService.do_capture c authorization_id amount now freshChargeId).2 = c := by
      intro hcc
      simp only [AuthorizationService.do_capture, h, hcc]
      split_ifs <;> simp [isOkE]
    have voidT : auth.can_void = true →
        isOkE (AuthorizationService.void c authorization_id now).1 = true
        ∧ (AuthorizationService.void c authorization_id now).2.authorizations
            = ainsert authorization_id { auth with status := GAuthStatus.voided, voided_at := some now } c.authorizations := by
      intro hcv
      constructor <;> simp [AuthorizationService.void, h, hcv, isOkE]
    have voidF : auth.can_void = false →
        isOkE (AuthorizationService.void c authorization_id now).1 = false
        ∧ (AuthorizationService.void c authorization_id now).2 = c := by
      intro hcv
      constructor <;> simp [AuthorizationService.void, h, hcv, isOkE]
    refine ⟨?_, ?_, ?_, ?_, ?_, ?_, ?_, ?_⟩
    · constructor
      · intro hok
        cases hcc : auth.can_capture (some (captureAmountOf auth amount)) now with
        | true =>
          obtain ⟨hA, hT, hR⟩ := (can_capture_some_iff auth _ now).mp hcc
          exact ⟨auth, rfl, hA, hT, hR⟩
        | false =>
          rw [(capF hcc).1] at hok
          exact absurd hok (by simp)
      · rintro ⟨a, ha, hA, hT, hR⟩
        obtain rfl : auth = a := by simpa using ha
        exact (capT ((can_capture_some_iff auth _ now).mpr ⟨hA, hT, hR⟩)).1
    · intro a ha hok
      obtain rfl : auth = a := by simpa using ha
      cases hcc : auth.can_capture (some (captureAmountOf auth amount)) now with
      | true =>
        rw [(capT hcc).2]
        exact alookup_ainsert_self _ _ _
      | false =>
        rw [(capF hcc).1] at hok
        exact absurd hok (by simp)
    · constructor
      · intro hok
        cases hcv : auth.can_void with
        | true =>
          refine ⟨auth, rfl, ?_⟩
          simpa [Authorization.can_void] using hcv
        | false =>
          rw [(voidF hcv).1] at hok
          exact absurd hok (by simp)
      · rintro ⟨a, ha, hA⟩
        obtain rfl : auth = a := by simpa using ha
        exact (voidT (by simp [Authorization.can_void, hA])).1
    · intro a ha hok
      obtain rfl : auth = a := by simpa using ha
      cases hcv : auth.can_void with
      | true =>
        rw [(voidT hcv).2]
        exact alookup_ainsert_self _ _ _
      | false =>
        rw [(voidF hcv).1] at hok
        exact absurd hok (by simp)
    · intro hfail
      cases hcc : auth.can_capture (some (captureAmountOf auth amount)) now with
      | true =>
        rw [(capT hcc).1] at hfail
        exact absurd hfail (by simp)
      | false => exact (capF hcc).2
    · intro hfail
      cases hcv : auth.can_void with
      | true =>
        rw [(voidT hcv).1] at hfail
        exact absurd hfail (by simp)
      | false => exact (voidF hcv).2
    · intro t a' ht hexp
      cases hcc : auth.can_capture (some (captureAmountOf auth amount)) now with
      | true =>
        rw [(capT hcc).2] at ht
        by_cases hti : authorization_id = t
        · subst hti
          rw [alookup_ainsert_self] at ht
          obtain rfl := Option.some.inj ht
          simp at hexp
        · rwa [alookup_ainsert_ne _ _ _ _ hti] at ht
      | false =>
        rwa [(capF hcc).2] at ht
    · intro t a' ht hexp
      cases hcv : auth.can_void with
      | true =>
        rw [(voidT hcv).2] at ht
        by_cases hti : authorization_id = t
        · subst hti
          rw [alookup_ainsert_self] at ht
          obtain rfl := Option.some.inj ht
          simp at hexp
        · rwa [alookup_ainsert_ne _ _ _ _ hti] at ht
      | false =>
        rwa [(voidF hcv).2] at ht

/-- Witness for C5: a $40 capture against a live $50 authorization succeeds
and its record transitions to `captured`. -/
theorem C5_witness :
    isOkE (AuthorizationService.do_capture coreLive "auth_live" (some 4000) 50 "ch_2").1 = true
    ∧ alookup "auth_live" (AuthorizationService.do_capture coreLive "auth_live" (some 4000) 50 "ch_2").2.authorizations
        = some { authLive with status := GAuthStatus.captured, captured_amount := 4000, captured_at := some 50 } := by
  have hmain := C5_state_machine coreLive "auth_live" (some 4000) 50 "ch_2"
  have hok := hmain.1.mpr ⟨authLive, by decide, by decide, by decide, by decide⟩
  exact ⟨hok, hmain.2.1 authLive (by decide) hok⟩

/-- **C5, counterexample.** An `active` authorization whose `expires_at = 100`
lies in the past (`now = 200`): the claim says a void or capture attempted
after `expires_at` transitions it to `expired`, but void *succeeds* and sets
`voided`, and a capture attempt fails leaving the record `active` - the
status `expired` is never assigned. -/
theorem C5_counterexample :
    isOkE (AuthorizationService.void coreStale "auth_stale" 200).1 = true
    ∧ alookup "auth_stale" (AuthorizationService.void coreStale "auth_stale" 200).2.authorizations
        = some { authStale with status := GAuthStatus.voided, voided_at := some 200 }
    ∧ isOkE (AuthorizationService.do_capture coreStale "auth_stale" none 200 "ch_1").1 = false
    ∧ alookup "auth_stale" (AuthorizationService.do_capture coreStale "auth_stale" none 200 "ch_1").2.authorizations
        = some authStale
    ∧ authStale.expires_at < 200 := by decide

/-! ## Amount validation vs the idempotency wrapper (claim C7) -/

/-- **C7** (amended). In `AuthorizationService.authorize` the amount is
validated *before* the idempotency wrapper and before any bank call: with a
key supplied, an invalid amount raises `InvalidAmountError`, leaves the whole
state (including the idempotency store) untouched, makes no bank call, and a
fresh key can never produce a Conflict afterwards.  In `create_charge`,
however, validation runs *inside* the idempotent operation: with a key
supplied, an invalid amount still precedes any bank call but writes a
`failed` idempotency record under the key, so reusing that key with a
corrected amount (any differing parameter hash) raises Conflict. -/
theorem C7_amount_validation (c : GatewayCore) (s : IdemStore CachedVal)
    (token_id : String) (amount : Int) (currency merchant_id : String) (key : String)
    (now : Int) (fa fc : String) (capture : Bool) (description : Option String)
    (e : PyErr) (hbad : validate_amount amount = some e) :
    AuthorizationService.authorize c s token_id amount currency merchant_id (some key) now fa
      = ⟨.raised e, c, s, 0⟩
    ∧ (alookup key s = none → ∀ amount2 fa2,
        (AuthorizationService.authorize c s token_id amount2 currency merchant_id (some key) now fa2).outcome
          ≠ .conflict)
    ∧ (alookup key s = none →
        (AuthorizationService.create_charge c s token_id amount currency capture merchant_id description (some key) now fc fa).outcome
            = .raised e
        ∧ (AuthorizationService.create_charge c s token_id amount currency capture merchant_id description (some key) now fc fa).bank_calls = 0
        ∧ alookup key (AuthorizationService.create_charge c s token_id amount currency capture merchant_id description (some key) now fc fa).idem
            = some ⟨key, .failed, hashParams ⟨token_id, amount, currency, some capture⟩, none, some e, now, now + ttlSeconds⟩)
    ∧ (∀ r : IdemRecord CachedVal, alookup key s = some r → r.is_expired now = false →
        r.request_hash ≠ hashParams ⟨token_id, amount, currency, some capture⟩ →
        (AuthorizationService.create_charge c s token_id amount currency capture merchant_id description (some key) now fc fa).outcome
          = .conflict) := by
  refine ⟨?_, ?_, ?_, ?_⟩
  · simp [AuthorizationService.authorize, hbad]
  · intro hnone amount2 fa2
    cases hv : validate_amount amount2 with
    | some e2 => simp [AuthorizationService.authorize, hv]
    | none =>
      have hget : storeGet s key now = (none, s) := by simp [storeGet, hnone]
      rcases hop : do_authorize c token_id amount2 currency merchant_id now fa2 with ⟨res, c', n⟩
      cases res with
      | ok a => simp [AuthorizationService.authorize, hv, IdempotencyService.execute, hget, hop]
      | error e3 => simp [AuthorizationService.authorize, hv, IdempotencyService.execute, hget, hop]
  · intro hnone
    have hget : storeGet s key now = (none, s) := by simp [storeGet, hnone]
    have hdo : do_create_charge c token_id amount currency capture merchant_id description now fc fa
        = (.error e, c, 0) := by
      simp [do_create_charge, hbad]
    refine ⟨?_, ?_, ?_⟩
    · simp [AuthorizationService.create_charge, IdempotencyService.execute, hget, hdo]
    · simp [AuthorizationService.create_charge, IdempotencyService.execute, hget, hdo]
    · simp only [AuthorizationService.create_charge, IdempotencyService.execute, hget, hdo]
      simp [storeSet, alookup_ainsert_self]
  · intro r hr hlive hne
    have hget : storeGet s key now = (some r, s) := by simp [storeGet, hr, hlive]
    simp [AuthorizationService.create_charge, IdempotencyService.execute, hget,
      handle_existing_record, hne]

/-- Witness for C7: amount 10 is below the 50-cent minimum; `authorize` under
key `idem_k` fails fast leaving the empty store empty, while `create_charge`
under the same key raises the same error but records it. -/
theorem C7_witness :
    AuthorizationService.authorize core0 [] "tok_1" 10 "usd" "m" (some "idem_k") 0 "au_1"
      = ⟨.raised invalidLowErr, core0, [], 0⟩
    ∧ (AuthorizationService.create_charge core0 [] "tok_1" 10 "usd" true "m" none (some "idem_k") 0 "ch_1" "au_1").outcome
        = .raised invalidLowErr
    ∧ alookup "idem_k" (AuthorizationService.create_charge core0 [] "tok_1" 10 "usd" true "m" none (some "idem_k") 0 "ch_1" "au_1").idem
        = some ⟨"idem_k", .failed, hashParams ⟨"tok_1", 10, "usd", some true⟩, none, some invalidLowErr, 0, 0 + ttlSeconds⟩ := by
  have h := C7_amount_validation core0 [] "tok_1" 10 "usd" "m" "idem_k" 0 "au_1" "ch_1"
    true none invalidLowErr (by decide)
  exact ⟨h.1, (h.2.2.1 rfl).1, (h.2.2.1 rfl).2.2⟩

/-- **C7, counterexample.** `create_charge` with key `idem_k` and the invalid
amount 10 *does* create an idempotency record (a `failed` one), and the
claimed later reuse of the key with the corrected amount 9900 raises
Conflict instead of succeeding. -/
theorem C7_counterexample :
    alookup "idem_k" chargeStep1.idem ≠ none
    ∧ chargeStep2.outcome = .conflict := by decide

/-! ## Network-level capture (claim C10) -/

/-- **C10.** `CardNetwork.capture` succeeds only while the logged transaction
is in status `"approved"`; on success the log entry becomes `"captured"`, so
any further capture of the same transaction id fails: a network transaction
is never captured twice. -/
theorem C10_capture_once (cn : CardNetwork) (transaction_id : String) (amount : Int)
    (hs : (cn.capture transaction_id amount).1.success = true) :
    (∃ txn, alookup transaction_id cn.transactions = some txn ∧ txn.status = "approved"
      ∧ alookup transaction_id (cn.capture transaction_id amount).2.transactions
          = some { txn with status := "captured" })
    ∧ ∀ amount2 : Int,
        ((cn.capture transaction_id amount).2.capture transaction_id amount2).1.success
          = false := by
  cases h : alookup transaction_id cn.transactions with
  | none => simp [CardNetwork.capture, h] at hs
  | some txn =>
    by_cases hst : txn.status = "approved"
    · cases hiss : alookup txn.issuer_id cn.issuers with
      | none => simp [CardNetwork.capture, h, hst, hiss] at hs
      | some issuer =>
        by_cases hcap : (issuer.capture transaction_id amount).1 = true
        · have hres : (cn.capture transaction_id amount).2 = { cn with issuers := ainsert txn.issuer_id (issuer.capture transaction_id amount).2 cn.issuers, transactions := ainsert transaction_id { txn with status := "captured" } cn.transactions } := by
            simp [CardNetwork.capture, h, hst, hiss, hcap]
          refine ⟨⟨txn, rfl, hst, ?_⟩, ?_⟩
          · rw [hres]
            exact alookup_ainsert_self _ _ _
          · intro amount2
            rw [hres]
            simp [CardNetwork.capture, alookup_ainsert_self]
        · rw [Bool.not_eq_true] at hcap
          simp [CardNetwork.capture, h, hst, hiss, hcap] at hs
    · simp [CardNetwork.capture, h, hst] at hs

/-- Witness for C10: capturing the logged approved transaction `nt_1` flips
it to `"captured"`, and a repeated capture fails. -/
theorem C10_witness :
    alookup "nt_1" (visaNetHold.capture "nt_1" 5000).2.transactions
        = some { netTxn1 with status := "captured" }
    ∧ ((visaNetHold.capture "nt_1" 5000).2.capture "nt_1" 5000).1.success = false := by
  have h := C10_capture_once visaNetHold "nt_1" 5000 (by decide)
  obtain ⟨⟨txn, htxn, _, hpost⟩, hsecond⟩ := h
  have heq : txn = netTxn1 := by
    have : alookup "nt_1" visaNetHold.transactions = some netTxn1 := rfl
    rw [this] at htxn
    exact (Option.some.inj htxn).symm
  exact ⟨heq ▸ hpost, hsecond 5000⟩

/-! ## Brand detection and routing guard (claim C9) -/

theorem take_eq_of_short {γ : Type} (l k : List γ) (m : Nat)
    (h : l.take m = k) (hk : k.length < m) : l = k := by
  have hlen := congrArg List.length h
  rw [List.length_take] at hlen
  have hl : l.length ≤ m := by omega
  rw [← h]
  exact (List.take_of_length_le hl).symm

theorem binLookup_take4 (l : List Char) (n : NetworkType)
    (h : binLookup (l.take 4) BIN_RANGES = some n) :
    binLookup (l.take 2) BIN_RANGES = some n := by
  by_cases h4 : (['4'] : List Char) = l.take 4
  · obtain rfl : l = ['4'] := take_eq_of_short l _ 4 h4.symm (by decide)
    simpa using h
  · by_cases h5 : (['5'] : List Char) = l.take 4
    · obtain rfl : l = ['5'] := take_eq_of_short l _ 4 h5.symm (by decide)
      simpa using h
    · by_cases h34 : (['3', '4'] : List Char) = l.take 4
      · obtain rfl : l = ['3', '4'] := take_eq_of_short l _ 4 h34.symm (by decide)
        simpa using h
      · by_cases h37 : (['3', '7'] : List Char) = l.take 4
        · obtain rfl : l = ['3', '7'] := take_eq_of_short l _ 4 h37.symm (by decide)
          simpa using h
        · by_cases h6 : (['6'] : List Char) = l.take 4
          · obtain rfl : l = ['6'] := take_eq_of_short l _ 4 h6.symm (by decide)
            simpa using h
          · simp [binLookup, BIN_RANGES, h4, h5, h34, h37, h6] at h

/-- **C9.** Brand detection returns the longest BIN prefix found in the
table (equivalently: trying the 4-digit, then 2-digit, then 1-digit prefix -
the table holds no prefix longer than 2 digits, so the code's 2-then-1 probe
computes the same function), and `route_authorization` returns an error
without forwarding to any issuer - and without logging a transaction or
touching any state - whenever the detected brand differs from the router's
configured network type. -/
theorem C9_detection_and_guard (card_number : String) (_hne : card_number ≠ "")
    (cn : CardNetwork) (acquirer_id : String) (exp_month exp_year : Nat) (cvv : String)
    (amount : Int) (currency merchant_id merchant_name merchant_category : String)
    (txn_id : String) (now : Int) :
    detect_network card_number = detect_network_spec card_number
    ∧ (detect_network card_number ≠ some cn.network_type →
        (cn.route_authorization acquirer_id card_number exp_month exp_year cvv amount currency merchant_id merchant_name merchant_category txn_id now).1.success = false
        ∧ (cn.route_authorization acquirer_id card_number exp_month exp_year cvv amount currency merchant_id merchant_name merchant_category txn_id now).2 = cn) := by
  constructor
  · cases h4 : binLookup (card_number.toList.take 4) BIN_RANGES with
    | none =>
      unfold detect_network detect_network_spec
      rw [h4]
    | some n =>
      have h2 := binLookup_take4 card_number.toList n h4
      unfold detect_network detect_network_spec
      rw [h4, h2]
  · intro hmm
    constructor <;> simp [CardNetwork.route_authorization, hmm]

/-- Witness for C9: the detection functions agree on the Mastercard test
card, and routing it on a Visa network is rejected without a state change. -/
theorem C9_witness :
    detect_network "5555555555554444" = detect_network_spec "5555555555554444"
    ∧ (visaNetC6.route_authorization "acq" "5555555555554444" 12 2025 "123" 5000 "USD" "m" "M" "5411" "nt_x" demoNow).1.success = false
    ∧ (visaNetC6.route_authorization "acq" "5555555555554444" 12 2025 "123" 5000 "USD" "m" "M" "5411" "nt_x" demoNow).2 = visaNetC6 := by
  have h := C9_detection_and_guard "5555555555554444" (by decide) visaNetC6 "acq" 12 2025
    "123" 5000 "USD" "m" "M" "5411" "nt_x" demoNow
  exact ⟨h.1, (h.2 (by decide)).1, (h.2 (by decide)).2⟩

/-! ## Settlement batches (claim C8) -/

theorem sum_map_sub (f g : (String × AcquirerTransaction) → Int)
    (l : List (String × AcquirerTransaction)) :
    (l.map (fun p => f p - g p)).sum = (l.map f).sum - (l.map g).sum := by
  induction l with
  | nil => simp
  | cons p rest ih => simp [ih]; ring

theorem batchScan_spec (now : Int) (l : List (String × AcquirerTransaction)) :
    (batchScan now l).1
        = l.map (fun p => if p.2.settlement_status = SettlementStatus.pending then (p.1, { p.2 with settlement_status := SettlementStatus.batched, settlement_date := some (now + daysSec 2) }) else p)
    ∧ (batchScan now l).2.1
        = (l.filter (fun p => p.2.settlement_status == SettlementStatus.pending)).map (fun p => p.2.transaction_id)
    ∧ (batchScan now l).2.2.1
        = ((l.filter (fun p => p.2.settlement_status == SettlementStatus.pending)).map (fun p => p.2.amount)).sum
    ∧ (batchScan now l).2.2.2
        = ((l.filter (fun p => p.2.settlement_status == SettlementStatus.pending)).map (fun p => p.2.fees)).sum := by
  induction l with
  | nil => simp [batchScan]
  | cons p rest ih =>
    obtain ⟨k, txn⟩ := p
    by_cases hp : txn.settlement_status = SettlementStatus.pending <;>
      simp [batchScan, hp, ih.1, ih.2.1, ih.2.2.1, ih.2.2.2]

/-- **C8.** `create_settlement_batch` flips exactly the pending transactions
to `batched` with `settlement_date = now + 2 days`, and the returned batch
lists exactly their ids with `total_amount`, `total_fees` and `net_amount`
equal to the sums of their `amount`, `fees` and `amount - fees`; in
particular the two-transaction scenario (10000/320 and 5000/175) yields
totals 15000 / 495 / 14505 with both transactions batched. -/
theorem C8_settlement (b : AcquiringBank) (batch_id : String) (now : Int) :
    (b.create_settlement_batch batch_id now).1.transactions
        = (b.transactions.filter (fun p => p.2.settlement_status == SettlementStatus.pending)).map (fun p => p.2.transaction_id)
    ∧ (b.create_settlement_batch batch_id now).1.total_amount
        = ((b.transactions.filter (fun p => p.2.settlement_status == SettlementStatus.pending)).map (fun p => p.2.amount)).sum
    ∧ (b.create_settlement_batch batch_id now).1.total_fees
        = ((b.transactions.filter (fun p => p.2.settlement_status == SettlementStatus.pending)).map (fun p => p.2.fees)).sum
    ∧ (b.create_settlement_batch batch_id now).1.net_amount
        = ((b.transactions.filter (fun p => p.2.settlement_status == SettlementStatus.pending)).map (fun p => p.2.amount - p.2.fees)).sum
    ∧ (b.create_settlement_batch batch_id now).2.transactions
        = b.transactions.map (fun p => if p.2.settlement_status = SettlementStatus.pending then (p.1, { p.2 with settlement_status := SettlementStatus.batched, settlement_date := some (now + daysSec 2) }) else p)
    ∧ (acqBankTwoPending.create_settlement_batch "batch_1" 0).1.total_amount = 15000
    ∧ (acqBankTwoPending.create_settlement_batch "batch_1" 0).1.total_fees = 495
    ∧ (acqBankTwoPending.create_settlement_batch "batch_1" 0).1.net_amount = 14505
    ∧ ∀ p ∈ (acqBankTwoPending.create_settlement_batch "batch_1" 0).2.transactions,
        p.2.settlement_status = SettlementStatus.batched := by
  obtain ⟨h1, h2, h3, h4⟩ := batchScan_spec now b.transactions
  refine ⟨h2, h3, h4, ?_, h1, by decide, by decide, by decide, by decide⟩
  show (batchScan now b.transactions).2.2.1 - (batchScan now b.transactions).2.2.2 = _
  rw [h3, h4, sum_map_sub]

/-- Witness for C8: the two-pending-transaction scenario instantiates the
batch totals and the batched flip. -/
theorem C8_witness :
    (acqBankTwoPending.create_settlement_batch "batch_1" 0).1.total_amount
        = ((acqBankTwoPending.transactions.filter (fun p => p.2.settlement_status == SettlementStatus.pending)).map (fun p => p.2.amount)).sum
    ∧ ∀ p ∈ (acqBankTwoPending.create_settlement_batch "batch_1" 0).2.transactions,
        p.2.settlement_status = SettlementStatus.batched := by
  have h := C8_settlement acqBankTwoPending "batch_1" 0
  exact ⟨h.2.1, h.2.2.2.2.2.2.2.2⟩

/-! ## Acquirer capture routing (claim C6) -/

/-- **C6** (amended). `AcquiringBank.capture` fails when the transaction id
is unknown, and otherwise forwards the capture to the *first registered
network* (the Visa instance) regardless of which network originally
authorized the transaction; on success it adds the transaction's
`net_amount` to the owning merchant's `pending_settlement`. -/
theorem C6_capture_first_network (b : AcquiringBank) (transaction_id : String)
    (amount : Option Int) :
    (alookup transaction_id b.transactions = none →
      (b.capture transaction_id amount).1
          = { success := false, error := some "Transaction not found" }
      ∧ (b.capture transaction_id amount).2 = b)
    ∧ (∀ txn net rest, alookup transaction_id b.transactions = some txn →
        b.networks = net :: rest →
        (b.capture transaction_id amount).1
            = (net.capture txn.network_transaction_id (captureAmtA txn amount)).1
        ∧ ((net.capture txn.network_transaction_id (captureAmtA txn amount)).1.success = true →
            ∀ m, alookup txn.merchant_id b.merchants = some m →
              alookup txn.merchant_id (b.capture transaction_id amount).2.merchants
                = some { m with pending_settlement := m.pending_settlement + txn.net_amount })) := by
  constructor
  · intro hnone
    exact ⟨by simp [AcquiringBank.capture, hnone], by simp [AcquiringBank.capture, hnone]⟩
  · intro txn net rest htxn hnet
    constructor
    · by_cases hsc : (net.capture txn.network_transaction_id (captureAmtA txn amount)).1.success = true
      · cases hm : alookup txn.merchant_id b.merchants <;>
          simp [AcquiringBank.capture, htxn, hnet, hsc, hm]
      · simp [AcquiringBank.capture, htxn, hnet, hsc]
    · intro hsc m hm
      simp [AcquiringBank.capture, htxn, hnet, hsc, hm, alookup_ainsert_self]

/-- Witness for C6: a transaction authorized on the (first-registered) Visa
network captures through it and credits the merchant with `net_amount`. -/
theorem C6_witness :
    (acqBankV.capture "txn_v" none).1 = (visaRouted.2.capture "nt_v1" 10000).1
    ∧ alookup "merch_demo123" (acqBankV.capture "txn_v" none).2.merchants
        = some { merchDemo with pending_settlement := merchDemo.pending_settlement + 9680 } := by
  have h := (C6_capture_first_network acqBankV "txn_v" none).2 acqTxnV visaRouted.2
    [mcNetC6] (by decide) rfl
  exact ⟨h.1, h.2 (by decide) merchDemo (by decide)⟩

/-- **C6, counterexample.** A transaction authorized on the *Mastercard*
network: its capture is forwarded to the Visa instance (the first registered
network), which does not know the network transaction id, so the capture
fails - while the claimed routing (to the originating network) succeeds and
credits the merchant. -/
theorem C6_counterexample :
    (acqBankMC.capture "txn_mc" none).1.success = false
    ∧ (acqBankMC.capture "txn_mc" none).1.error = some "Transaction not found"
    ∧ (acqBankMC.capture_claimed "txn_mc" none).1.success = true
    ∧ alookup "merch_demo123" (acqBankMC.capture_claimed "txn_mc" none).2.merchants
        = some { merchDemo with pending_settlement := merchDemo.pending_settlement + 9680 } := by
  decide

end PayDemo
